import Mathlib

/-
  Verification development for the django_campus_safety counselor-portal
  subsystem: queue-state derivation, counselor auto-assignment, encrypted
  chat messages, emotion/risk scoring and reply suggestions.

  Modelling conventions:
  * Text is modelled as `List Char` (Python `str`).  Python regular
    expression word characters (`\w`) are modelled as ASCII alphanumerics
    plus underscore; Python whitespace as the explicit character set below.
  * Databases are modelled as in-memory lists of records; unordered SQL
    result sets are determinized to stored order (no theorem depends on
    that order).  Python floats are modelled as exact rationals.
  * The RSA-OAEP primitives of the `cryptography` library (external to the
    repository) are modelled symbolically: a ciphertext pairs the public
    key id with the payload, and decryption succeeds exactly when the
    decrypting user's key matches; key generation draws fresh ids from a
    counter.
-/

set_option maxHeartbeats 1000000
set_option synthInstance.maxHeartbeats 400000

/-! ## Python-style text primitives -/

abbrev Str := List Char

/-- Lowercasing, modelling `str.lower()` / `re.IGNORECASE` (ASCII). -/
def lowerStr (s : Str) : Str := s.map Char.toLower

/-- Word characters of the regex `\b` boundary (`\w`): alphanumerics and underscore. -/
def isWordChar (c : Char) : Bool := c.isAlphanum || c == '_'

/-- Whitespace stripped by Python `str.strip()` (ASCII and latin-1 range). -/
def isPySpace (c : Char) : Bool :=
  c == ' ' || c == '\t' || c == '\n' || c == '\r' || c == '\x0b' || c == '\x0c' ||
  c == '\x1c' || c == '\x1d' || c == '\x1e' || c == '\x1f' || c == '\x85' || c == '\xa0'

/-- Left strip of Python whitespace. -/
def lstrip (s : Str) : Str := s.dropWhile isPySpace

/-- Right strip of Python whitespace. -/
def rstrip (s : Str) : Str := (s.reverse.dropWhile isPySpace).reverse

/-- Python `str.strip()`. -/
def pyStrip (s : Str) : Str := rstrip (lstrip s)

/-- Tests that `ph` occurs at the current position: `ph` must be an initial
segment of `s` and the character right after it (if any) must not be a word
character (the closing `\b` of the patterns). -/
def phraseAt : Str → Str → Bool
  | [], [] => true
  | [], c :: _ => !isWordChar c
  | _ :: _, [] => false
  | p :: ps, c :: cs => p == c && phraseAt ps cs

/-- Scanner for a word-bounded occurrence of `ph`; `bOK` records whether the
previous character (start of string counts) was a boundary. -/
def goWB (ph : Str) (bOK : Bool) : Str → Bool
  | [] => false
  | c :: cs => (bOK && phraseAt ph (c :: cs)) || goWB ph (!isWordChar c) cs

/-- Word-bounded substring search: models `re.search` of a pattern of the
form `\b(...)\b` whose alternatives are the literal phrases. -/
def hasWB (ph s : Str) : Bool := goWB ph true s

/-- Every character preceding an occurrence is irrelevant except the last
one, which must not be a word character (or there is none). -/
def boundaryLeft (pre : Str) : Prop :=
  ∀ d, pre.getLast? = some d → isWordChar d = false

/-- The character following an occurrence must not be a word character
(or there is none). -/
def boundaryRight (suf : Str) : Prop :=
  ∀ d, suf.head? = some d → isWordChar d = false

/-- Declarative word-bounded occurrence of `ph` inside `s`. -/
def WBOccurs (ph s : Str) : Prop :=
  ∃ pre suf, s = pre ++ ph ++ suf ∧ boundaryLeft pre ∧ boundaryRight suf

/-- Side conditions satisfied by every keyword phrase in the source: the
phrase is nonempty, starts and ends with a word character, and contains no
newline. -/
def GoodPhrase (ph : Str) : Prop :=
  ph ≠ [] ∧ (∀ h, ph.head? = some h → isWordChar h = true) ∧
    (∀ d, ph.getLast? = some d → isWordChar d = true) ∧ '\n' ∉ ph

instance : ∀ ph, Decidable (GoodPhrase ph) := fun ph => by
  unfold GoodPhrase
  exact inferInstance

/-- Python `" \n".join(parts)`. -/
def pyJoinNl : List Str → Str
  | [] => []
  | [c] => c
  | c :: c2 :: cs => c ++ (' ' :: '\n' :: pyJoinNl (c2 :: cs))

/-- Character-list form of a string literal. -/
def strChars (s : String) : Str := s.data

/-- Match of any phrase of a pattern set against a text, lowercased first
(the emotion patterns are compiled with `re.IGNORECASE`). -/
def anyHit (phs : List Str) (s : Str) : Bool := phs.any fun p => hasWB p (lowerStr s)

/-! ## Keyword pattern sets (counselor_portal/emotion.py) -/

/-- Alternatives of `_CRITICAL_PATTERNS`. -/
def criticalPhrases : List Str :=
  [strChars "suicide", strChars "suicidal", strChars "kill myself",
    strChars "self-harm", strChars "end my life", strChars "hurt myself",
    strChars "give up", strChars "no reason to live"]

/-- Alternatives of `_ANXIOUS_PATTERNS`. -/
def anxiousPhrases : List Str :=
  [strChars "anxious", strChars "anxiety", strChars "panic", strChars "worried",
    strChars "worry", strChars "overwhelmed", strChars "uneasy", strChars "nervous"]

/-- Alternatives of `_ANGRY_PATTERNS`. -/
def angryPhrases : List Str :=
  [strChars "angry", strChars "furious", strChars "mad", strChars "rage",
    strChars "irritated", strChars "frustrated", strChars "upset", strChars "hate"]

/-- Alternatives of `_STRESSED_PATTERNS` (`stress(ed|ful)?`, `burn(out|ed)`). -/
def stressedPhrases : List Str :=
  [strChars "stress", strChars "stressed", strChars "stressful", strChars "pressure",
    strChars "burnout", strChars "burned", strChars "tired", strChars "exhausted"]

/-- Alternatives of `_CALM_PATTERNS`. -/
def calmPhrases : List Str :=
  [strChars "relieved", strChars "better now", strChars "okay", strChars "fine",
    strChars "calm", strChars "breathing", strChars "managing"]

/-- Search of `_CRITICAL_PATTERNS` in a text. -/
def criticalHit (s : Str) : Bool := anyHit criticalPhrases s

/-- Search of `_ANXIOUS_PATTERNS` in a text. -/
def anxiousHit (s : Str) : Bool := anyHit anxiousPhrases s

/-- Search of `_ANGRY_PATTERNS` in a text. -/
def angryHit (s : Str) : Bool := anyHit angryPhrases s

/-- Search of `_STRESSED_PATTERNS` in a text. -/
def stressedHit (s : Str) : Bool := anyHit stressedPhrases s

/-- Search of `_CALM_PATTERNS` in a text. -/
def calmHit (s : Str) : Bool := anyHit calmPhrases s

/-! ## Emotion and risk analysis (counselor_portal/emotion.py) -/

/-- Structured output of `analyze_emotion` (dataclass `EmotionInsight`). -/
structure EmotionInsight where
  label : String
  confidence : ℚ
  polarity : ℚ
  risk_level : String
  explanation : String
deriving DecidableEq

/-- Model of `_mean_sentiment`: zero scores are dropped by the walrus filter,
then `fmean` averages what remains (0.0 if nothing remains). -/
def meanSentiment (sentiment : Str → ℚ) (samples : List Str) : ℚ :=
  let scores := (samples.map sentiment).filter fun q => q ≠ 0
  if scores.isEmpty then 0 else scores.sum / scores.length

/-- Context entries surviving `[c for c in (context or []) if c]`. -/
def ctxFilter (context : List Str) : List Str := context.filter fun c => ¬c.isEmpty

/-- The `combined_context` string. -/
def combinedContext (context : List Str) : Str := pyJoinNl (ctxFilter context)

/-- The `text_for_patterns` string: joined context, `" \n "`, stripped message. -/
def emotionTargetText (message : Str) (context : List Str) : Str :=
  let msg := pyStrip message
  let cc := combinedContext context
  if cc.isEmpty then msg else cc ++ (' ' :: '\n' :: ' ' :: msg)

/-- The `blended_polarity` value: 0.7 times message polarity plus 0.3 times
contextual polarity (the latter defaults to the message polarity when there
is no context).  The sentiment oracle stands for TextBlob, which is external
to the repository. -/
def blendedPolarity (sentiment : Str → ℚ) (message : Str) (context : List Str) : ℚ :=
  let msg := pyStrip message
  let cc := combinedContext context
  let polarity := sentiment msg
  let contextualPolarity := if cc.isEmpty then polarity else meanSentiment sentiment [cc]
  polarity * (7 / 10) + contextualPolarity * (3 / 10)

/-- Label classification chain of `analyze_emotion`, with the explanation
entries it records. -/
def emotionLabelAndExpl (sentiment : Str → ℚ) (message : Str) (context : List Str) :
    String × List String :=
  let text := emotionTargetText message context
  let blended := blendedPolarity sentiment message context
  if criticalHit text then
    ("stressed", ["Detected urgent language indicating potential self-harm risk."])
  else if anxiousHit text then ("anxious", ["Student referenced anxiety or worry cues."])
  else if angryHit text then ("angry", ["Language suggests frustration or anger."])
  else if stressedHit text then ("stressed", ["Stress or burnout phrases detected."])
  else if calmHit text then ("calm", ["Student explicitly described feeling calmer."])
  else if blended > 1 / 4 then ("calm", ["Overall positive tone across the conversation."])
  else if blended < -(1 / 5) then ("anxious", ["Negative tone suggests heightened concern."])
  else ("neutral", [])

/-- Risk classification chain of `analyze_emotion`, together with the final
explanation list. -/
def riskAndExpl (sentiment : Str → ℚ) (message : Str) (context : List Str) :
    String × List String :=
  let text := emotionTargetText message context
  let blended := blendedPolarity sentiment message context
  let le := emotionLabelAndExpl sentiment message context
  if criticalHit text then ("critical", le.2)
  else if blended < -(9 / 20) then
    ("critical", le.2 ++ ["Severely negative tone detected across messages."])
  else if blended < -(1 / 4) ∨ le.1 = "anxious" ∨ le.1 = "stressed" then
    ("elevated", if le.2.isEmpty then ["Sustained worry or stress detected in context."] else le.2)
  else ("normal", le.2)

/-- Rounding of Python `round(x, n)` on the rational model: round half to even. -/
def roundHalfEven (q : ℚ) : ℤ :=
  let f := ⌊q⌋
  let r := q - (f : ℚ)
  if r < 1 / 2 then f
  else if 1 / 2 < r then f + 1
  else if f % 2 = 0 then f else f + 1

/-- Python `round(q, 3)`. -/
def round3 (q : ℚ) : ℚ := (roundHalfEven (1000 * q) : ℚ) / 1000

/-- Model of `analyze_emotion`, parameterized by the TextBlob sentiment
oracle.  Follows the source line by line: polarity blending, keyword label
chain, risk chain, confidence computation, explanation join. -/
def analyze_emotion (sentiment : Str → ℚ) (message : Str) (context : List Str) :
    EmotionInsight :=
  let blended := blendedPolarity sentiment message context
  let le := emotionLabelAndExpl sentiment message context
  let re := riskAndExpl sentiment message context
  let confidenceBase := max |blended| (1 / 5)
  let keywordBoost : ℚ := if re.2.isEmpty then 0 else 7 / 20
  let confidence := min (19 / 20) (2 / 5 + keywordBoost + confidenceBase * (2 / 5))
  { label := le.1
    confidence := round3 confidence
    polarity := round3 blended
    risk_level := re.1
    explanation :=
      if re.2.isEmpty then "Tone inferred from overall sentiment cues."
      else String.intercalate " " re.2 }

/-! ## Reply suggestions (counselor_portal/services.py) -/

/-- One suggestion dict `{"text": ..., "tone": ...}`. -/
structure Suggestion where
  text : String
  tone : String
deriving DecidableEq

/-- One entry of `SUGGESTION_RULES`: each keyword regex is expanded into the
list of its literal word-bounded alternatives. -/
structure SuggestionRule where
  keywords : List (List Str)
  tone : String
  responses : List String

/-- The `SUGGESTION_RULES` table. -/
def suggestionRules : List SuggestionRule :=
  [⟨[[strChars "depress", strChars "depressed", strChars "depression"],
      [strChars "hopeless"], [strChars "worthless"]],
    "Offer empathy",
    ["I'm really sorry you're feeling this way. Would you like to share more about what's been weighing on you lately?",
      "Thank you for opening up about these feelings. You're not alone and I'm here to help you find the next steps."]⟩,
    ⟨[[strChars "anxious"], [strChars "anxiety"], [strChars "panic"]],
    "Grounding support",
    ["It sounds like things feel overwhelming right now. Let's take it one step at a time—what tends to help you feel a little calmer?",
      "Thank you for sharing your worries. We can make a plan together to manage what's causing the anxiety."]⟩,
    ⟨[[strChars "stress", strChars "stressed"],
      [strChars "overwhelm", strChars "overwhelmed", strChars "overwhelming"],
      [strChars "pressure"]],
    "Normalize and plan",
    ["That sounds like a lot to carry. Let's talk about what's adding the most pressure so we can explore some options together.",
      "Feeling stretched thin is completely understandable. Would it help if we prioritized a few next steps together?"]⟩,
    ⟨[[strChars "harm myself"], [strChars "suicidal", strChars "suicide"],
      [strChars "end my life"], [strChars "kill myself"]],
    "Assess safety",
    ["I'm really concerned for your safety. Are you in immediate danger right now or have you already taken any steps to hurt yourself?",
      "Your safety is my top priority. Let's talk about what support you need in this moment—can I help connect you with urgent resources?"]⟩,
    ⟨[[strChars "bully", strChars "bullying"],
      [strChars "harass", strChars "harassed", strChars "harassment"],
      [strChars "threat"]],
    "Validate experience",
    ["I'm sorry you're experiencing this treatment. You deserve to feel safe—can you share more about what's been happening?",
      "Thank you for letting me know. Let's document the details together so we can respond quickly and keep you protected."]⟩]

/-- The `FALLBACK_RESPONSES` tuple. -/
def fallbackResponses : List String :=
  ["I appreciate you sharing this with me. What feels most important for us to focus on together right now?",
    "Thank you for reaching out—I'm here to support you. How have things been since this started?",
    "I'm listening. What would feel most helpful for you in the next day or two?"]

/-- Whether a rule matches the normalized message: `any(_match_rule(...))`
over the rule's keyword patterns (the normalized text is already lowercase,
and the patterns are lowercase literals, so no further case folding). -/
def ruleMatches (normalized : Str) (rule : SuggestionRule) : Bool :=
  rule.keywords.any fun pat => pat.any fun ph => hasWB ph normalized

/-- Inner loop over a matching rule's responses: append each response, and
return early (flag `true`) as soon as the limit is reached. -/
def addRuleResponses (limit : ℕ) (tone : String) :
    List String → List Suggestion → List Suggestion × Bool
  | [], acc => (acc, false)
  | r :: rs, acc =>
    let acc2 := acc ++ [⟨r, tone⟩]
    if limit ≤ acc2.length then (acc2, true) else addRuleResponses limit tone rs acc2

/-- Outer loop over `SUGGESTION_RULES`; the flag records the early return. -/
def ruleLoop (limit : ℕ) (normalized : Str) :
    List SuggestionRule → List Suggestion → List Suggestion × Bool
  | [], acc => (acc, false)
  | rule :: rest, acc =>
    if ruleMatches normalized rule then
      let out := addRuleResponses limit rule.tone rule.responses acc
      if out.2 then out else ruleLoop limit normalized rest out.1
    else ruleLoop limit normalized rest acc

/-- Fallback top-up loop: append fallback responses until the limit is
reached or the fallbacks run out. -/
def fillFallback (limit : ℕ) : List String → List Suggestion → List Suggestion
  | [], acc => acc
  | r :: rs, acc =>
    let acc2 := acc ++ [⟨r, "Supportive"⟩]
    if limit ≤ acc2.length then acc2 else fillFallback limit rs acc2

/-- Model of `generate_suggested_replies`. -/
def generate_suggested_replies (message : Str) (limit : ℕ) : List Suggestion :=
  let normalized := lowerStr (pyStrip message)
  if normalized.isEmpty then []
  else
    let out := ruleLoop limit normalized suggestionRules []
    if out.2 then out.1
    else if out.1.length < limit then fillFallback limit fallbackResponses out.1
    else out.1

/-! ## Data model (core/models.py, counselor_portal/models.py) -/

/-- Counselor specializations (`CounselorSpecialization`). -/
inductive CounselorSpecialization where
  | general
  | academic
  | emotional
  | disciplinary
deriving DecidableEq

/-- Incident types (`ReportType`). -/
inductive IncidentType where
  | bullying
  | ragging
  | harassment
  | other
deriving DecidableEq

/-- The three declared report statuses (`ReportStatus`); the column itself is
a string, so the record field below is `String`. -/
def reportStatusValues : List String := ["pending", "under_review", "resolved"]

/-- Values of `EmotionLabel`. -/
def emotionLabelValues : List String := ["anxious", "angry", "stressed", "calm", "neutral"]

/-- Values of `RiskLevel`. -/
def riskLevelValues : List String := ["normal", "elevated", "critical"]

/-- A Django auth user (the fields the counselor portal reads). -/
structure UserRec where
  id : ℕ
  is_staff : Bool
  is_active : Bool
deriving DecidableEq

/-- A `CounselorProfile` row.  Timestamps are naturals (instants since
`datetime.min`, which every stored `timezone.now()` value exceeds). -/
structure ProfileRec where
  user_id : ℕ
  specialization : CounselorSpecialization
  max_active_cases : ℕ
  auto_assign_enabled : Bool
  last_auto_assigned_at : Option ℕ
deriving DecidableEq

/-- A `Report` row. -/
structure ReportRec where
  id : ℕ
  reporter : Option ℕ
  incident_type : IncidentType
  description : String
  incident_date : ℕ
  location : String
  is_anonymous : Bool
  created_at : ℕ
  updated_at : ℕ
  reporter_name : String
  reporter_email : String
  reporter_phone : String
  tracking_code : String
  status : String
  assigned_to : Option ℕ
  assigned_at : Option ℕ
  resolved_at : Option ℕ
  counselor_notes : String
  awaiting_response : Bool
deriving DecidableEq

/-- A symbolic RSA-OAEP ciphertext: public key id plus payload, recoverable
only through the matching private key. -/
structure Cipher where
  keyId : ℕ
  payload : String
deriving DecidableEq

/-- A `UserKey` row (the PEM blobs are modelled by the key id). -/
structure UserKeyRec where
  user_id : ℕ
  pub : ℕ
  priv : ℕ
deriving DecidableEq

/-- A `ChatMessage` row. -/
structure ChatMessageRec where
  id : ℕ
  report : ℕ
  sender : ℕ
  recipient : ℕ
  cipher_for_sender : Cipher
  cipher_for_recipient : Cipher
  parent : Option ℕ
  timestamp : ℕ
  is_read : Bool
  attachment : Option String
  emotion : String
  emotion_score : ℚ
  emotion_confidence : ℚ
  risk_level : String
  emotion_explanation : String
deriving DecidableEq

/-- The database state. -/
structure DB where
  users : List UserRec
  profiles : List ProfileRec
  reports : List ReportRec
  messages : List ChatMessageRec
  keys : List UserKeyRec
  nextKeyId : ℕ
  nextMsgId : ℕ
  now : ℕ
deriving DecidableEq

/-- Uniqueness invariants maintained by the Django schema (primary keys and
one-to-one columns). -/
def WF (db : DB) : Prop :=
  (db.users.map UserRec.id).Nodup ∧ (db.profiles.map ProfileRec.user_id).Nodup ∧
    (db.reports.map ReportRec.id).Nodup ∧ (db.keys.map UserKeyRec.user_id).Nodup

instance : ∀ db, Decidable (WF db) := fun db => by
  unfold WF
  exact inferInstance

/-- Lookup of a user row by id. -/
def findUser (db : DB) (uid : ℕ) : Option UserRec := db.users.find? fun u => u.id = uid

/-- Lookup of a counselor profile by user id. -/
def findProfile (db : DB) (uid : ℕ) : Option ProfileRec :=
  db.profiles.find? fun p => p.user_id = uid

/-- Lookup of a report by id. -/
def findReport (db : DB) (rid : ℕ) : Option ReportRec := db.reports.find? fun r => r.id = rid

/-- Lookup of a user's encryption key. -/
def findKey (db : DB) (uid : ℕ) : Option UserKeyRec := db.keys.find? fun k => k.user_id = uid

/-! ## Counselor auto-assignment (counselor_portal/services.py) -/

/-- The `SPECIALIZATION_RULES` lookup with default `GENERAL`
(`_target_specialization`). -/
def target_specialization (t : IncidentType) : CounselorSpecialization :=
  match t with
  | .bullying => .disciplinary
  | .ragging => .disciplinary
  | .harassment => .emotional
  | .other => .general

/-- Ids of active staff users. -/
def staffIds (db : DB) : List ℕ :=
  (db.users.filter fun u => u.is_staff && u.is_active).map UserRec.id

/-- The defaults of a freshly created `CounselorProfile`. -/
def defaultProfile (uid : ℕ) : ProfileRec :=
  { user_id := uid, specialization := .general, max_active_cases := 25,
    auto_assign_enabled := true, last_auto_assigned_at := none }

/-- Model of `_collect_staff_profiles`: returns the profiles of all active
staff users, creating missing ones with defaults (a database write), in the
dict insertion order of the source (queried rows first, then created rows). -/
def collect_staff_profiles (db : DB) : List ProfileRec × DB :=
  let sids := staffIds db
  if sids.isEmpty then ([], db)
  else
    let existing := db.profiles.filter fun p => p.user_id ∈ sids
    let missing := sids.filter fun uid => db.profiles.all fun p => p.user_id ≠ uid
    let created := missing.map defaultProfile
    (existing ++ created, { db with profiles := db.profiles ++ created })

/-- Count of a counselor's assigned unresolved reports (the `workloads`
aggregation; absent group means zero). -/
def activeWorkload (db : DB) (uid : ℕ) : ℕ :=
  (db.reports.filter fun r => r.assigned_to == some uid && r.status ≠ "resolved").length

/-- A `CounselorCandidate`. -/
structure Candidate where
  profile : ProfileRec
  active_cases : ℕ
  specialization_rank : ℕ
  last_auto_assigned_at : Option ℕ
deriving DecidableEq

/-- Model of `_build_candidates`: filter collected profiles, compute
workloads, skip counselors at or over capacity, rank specializations. -/
def build_candidates (db : DB) (r : ReportRec) : List Candidate × DB :=
  let out := collect_staff_profiles db
  let db1 := out.2
  let profiles := out.1.filter fun p =>
    p.auto_assign_enabled &&
      match findUser db1 p.user_id with
      | some u => u.is_staff && u.is_active
      | none => false
  if profiles.isEmpty then ([], db1)
  else
    let target := target_specialization r.incident_type
    (profiles.filterMap fun p =>
      let active := activeWorkload db1 p.user_id
      if p.max_active_cases ≤ active then none
      else
        some
          { profile := p, active_cases := active,
            specialization_rank :=
              if p.specialization = target then 0
              else if p.specialization = CounselorSpecialization.general then 1
              else 2,
            last_auto_assigned_at := p.last_auto_assigned_at }, db1)

/-- The sort key of `assign_counselor` (`last_auto_assigned_at or
datetime.min` becomes `getD 0`). -/
def candKey (c : Candidate) : ℕ × ℕ × ℕ × ℕ :=
  (c.specialization_rank, c.active_cases, c.last_auto_assigned_at.getD 0,
    c.profile.user_id)

/-- Lexicographic order on quadruples of naturals (Python tuple comparison). -/
def lexKeyLe (x y : ℕ × ℕ × ℕ × ℕ) : Prop :=
  x.1 < y.1 ∨ (x.1 = y.1 ∧ (x.2.1 < y.2.1 ∨ (x.2.1 = y.2.1 ∧
    (x.2.2.1 < y.2.2.1 ∨ (x.2.2.1 = y.2.2.1 ∧ x.2.2.2 ≤ y.2.2.2)))))

instance : ∀ x y, Decidable (lexKeyLe x y) := fun x y => by
  unfold lexKeyLe
  exact inferInstance

/-- Candidate comparison by sort key. -/
def candRel (a b : Candidate) : Prop := lexKeyLe (candKey a) (candKey b)

instance : DecidableRel candRel := fun a b => by
  unfold candRel
  exact inferInstance

instance : IsTotal Candidate candRel := by
  constructor
  intro a b
  unfold candRel lexKeyLe
  omega

instance : IsTrans Candidate candRel := by
  constructor
  intro a b c
  unfold candRel lexKeyLe
  omega

/-- The `candidates.sort(key=...)` call.  Python's sort is stable; on the
key order above (total, and antisymmetric whenever user ids are distinct,
which the one-to-one profile column guarantees) every sorted permutation
agrees, so a structural insertion sort models it. -/
def sortCandidates (cs : List Candidate) : List Candidate := cs.insertionSort candRel

/-- The candidate chosen by `assign_counselor` for a report, together with
the database as mutated by candidate collection. -/
def chooseCandidate (db : DB) (r : ReportRec) : Option Candidate × DB :=
  let out := build_candidates db r
  ((sortCandidates out.1).head?, out.2)

/-- Model of `assign_counselor`: no-op when the report is already assigned
or no candidate exists; otherwise writes `assigned_to` and `status`
(`update_fields=["assigned_to", "status"]`) and stamps the chosen
counselor's `last_auto_assigned_at` via `mark_assigned_now`.  The
`refresh_from_db` recheck inside the transaction reads the same sequential
state and never fires here. -/
def assign_counselor (db : DB) (rid : ℕ) : DB :=
  match findReport db rid with
  | none => db
  | some r =>
    if r.assigned_to.isSome then db
    else
      let out := chooseCandidate db r
      let db1 := out.2
      match out.1 with
      | none => db1
      | some chosen =>
        let db2 :=
          { db1 with
            reports := db1.reports.map fun (x : ReportRec) =>
              if x.id = rid then
                { x with
                  assigned_to := some chosen.profile.user_id
                  status := "under_review" }
              else x }
        { db2 with
          profiles := db2.profiles.map fun (p : ProfileRec) =>
            if p.user_id = chosen.profile.user_id then
              { p with last_auto_assigned_at := some db2.now }
            else p }

/-- The specialization rank as the specification words it: 0 on an exact
match with the report's target specialization, 1 for a generalist, 2
otherwise. -/
def claimSpecializationRank (spec target : CounselorSpecialization) : ℕ :=
  if spec = target then 0 else if spec = CounselorSpecialization.general then 1 else 2

/-- The assignment key as the specification words it, recomputed from the
profile and the database: specialization rank, count of assigned unresolved
reports, last auto-assignment instant with a missing timestamp ordered
earliest (mapped to the least instant), user id. -/
def claimKey (db : DB) (r : ReportRec) (p : ProfileRec) : ℕ × ℕ × ℕ × ℕ :=
  (claimSpecializationRank p.specialization (target_specialization r.incident_type),
    activeWorkload db p.user_id, p.last_auto_assigned_at.getD 0, p.user_id)

/-! ## Queue state (counselor_portal/views.py, dashboard) -/

/-- The four queue labels. -/
def queueLabels : List String := ["new", "assigned_to_me", "waiting_on_student", "closed"]

/-- The `queue_case` conditional expression of the dashboard, `When` clauses
in source order; an SQL `NULL` annotation never equals the viewer. -/
def queue_state (status : String) (assignedTo : Option ℕ) (latestSender : Option ℕ)
    (viewer : ℕ) : String :=
  if status = "resolved" then "closed"
  else if assignedTo = none then "new"
  else if latestSender = some viewer then "waiting_on_student"
  else if assignedTo = some viewer then "assigned_to_me"
  else "assigned_to_me"

/-- The queue-state rules as the specification words them: resolved is
closed even if unassigned, unassigned is new, counselor-sent-last is
waiting on student, otherwise assigned to me. -/
def claimQueueState (status : String) (assignedTo : Option ℕ) (latestSender : Option ℕ)
    (viewer : ℕ) : String :=
  if status = "resolved" then "closed"
  else if assignedTo = none then "new"
  else if latestSender = some viewer then "waiting_on_student"
  else "assigned_to_me"

/-- The message with the greatest timestamp among a report's messages
(`order_by("-timestamp")` then first row; ties are unordered in SQL and
determinized to the earliest stored row). -/
def pickLatest : List ChatMessageRec → Option ChatMessageRec
  | [] => none
  | m :: ms =>
    match pickLatest ms with
    | none => some m
    | some b => if m.timestamp < b.timestamp then some b else some m

/-- The `latest_message_sender` annotation of the dashboard queryset. -/
def latestMessageSender (db : DB) (rid : ℕ) : Option ℕ :=
  (pickLatest (db.messages.filter fun m => m.report = rid)).map ChatMessageRec.sender

/-- The dashboard queryset: reports assigned to the viewer or unassigned. -/
def dashboardReports (db : DB) (viewer : ℕ) : List ReportRec :=
  db.reports.filter fun r => r.assigned_to == some viewer || r.assigned_to == none

/-! ## Encrypted chat (counselor_portal/models.py) -/

/-- Model of `UserKey.get_or_create`: return the stored key or create a
fresh pair. -/
def get_or_create_key (db : DB) (uid : ℕ) : UserKeyRec × DB :=
  match findKey db uid with
  | some k => (k, db)
  | none =>
    let k : UserKeyRec := { user_id := uid, pub := db.nextKeyId, priv := db.nextKeyId }
    (k, { db with keys := db.keys ++ [k], nextKeyId := db.nextKeyId + 1 })

/-- Model of `ChatMessage._encrypt_for`: encrypt under the user's public key. -/
def encrypt_for (db : DB) (uid : ℕ) (message : String) : Cipher × DB :=
  let out := get_or_create_key db uid
  ({ keyId := out.1.pub, payload := message }, out.2)

/-- Model of `ChatMessage._decrypt_for`: decryption succeeds exactly when
the ciphertext was produced under this user's key (the library raises
otherwise, modelled as `none`). -/
def decrypt_for (db : DB) (uid : ℕ) (c : Cipher) : Option String × DB :=
  let out := get_or_create_key db uid
  (if c.keyId = out.1.pub then some c.payload else none, out.2)

/-- Coerced extra fields of `ChatMessage.create`: label, score, confidence,
risk, explanation. -/
def insightExtras (insight : Option EmotionInsight) : String × ℚ × ℚ × String × String :=
  match insight with
  | some i =>
    (if i.label ∈ emotionLabelValues then i.label else "neutral", i.polarity,
      i.confidence,
      if i.risk_level ∈ riskLevelValues then i.risk_level else "normal", i.explanation)
  | none => ("neutral", 0, 0, "normal", "")

/-- Model of `ChatMessage.create`: encrypt the body once per party (sender
first), coerce insight fields into the declared choice sets, store the row.
The row has no plaintext body column. -/
def chatMessage_create (db : DB) (report sender recipient : ℕ) (message : String)
    (parent : Option ℕ) (attachment : Option String) (insight : Option EmotionInsight) :
    ChatMessageRec × DB :=
  let e := insightExtras insight
  let outS := encrypt_for db sender message
  let outR := encrypt_for outS.2 recipient message
  let db2 := outR.2
  let msg : ChatMessageRec :=
    { id := db2.nextMsgId, report := report, sender := sender, recipient := recipient,
      cipher_for_sender := outS.1, cipher_for_recipient := outR.1, parent := parent,
      timestamp := db2.now, is_read := false, attachment := attachment,
      emotion := e.1, emotion_score := e.2.1, emotion_confidence := e.2.2.1,
      risk_level := e.2.2.2.1, emotion_explanation := e.2.2.2.2 }
  (msg, { db2 with messages := db2.messages ++ [msg], nextMsgId := db2.nextMsgId + 1 })

/-- Model of `ChatMessage.get_body_for`: senders read their own copy,
everyone else reads the recipient copy. -/
def get_body_for (db : DB) (msg : ChatMessageRec) (uid : ℕ) : Option String × DB :=
  if uid = msg.sender then decrypt_for db uid msg.cipher_for_sender
  else decrypt_for db uid msg.cipher_for_recipient

/-! ## Report creation and admin case assignment -/

/-- Model of the `Report.objects.create` call of the anonymous submission
view: the status column is left to its declared default `pending`. -/
def createAnonymousReport (db : DB) (rid : ℕ) (itype : IncidentType)
    (description : String) (incidentDate : ℕ) (location : String)
    (rname remail rphone : String) (trackingCode : String) : ReportRec × DB :=
  let r : ReportRec :=
    { id := rid, reporter := none, incident_type := itype, description := description,
      incident_date := incidentDate, location := location, is_anonymous := true,
      created_at := db.now, updated_at := db.now, reporter_name := rname,
      reporter_email := remail, reporter_phone := rphone, tracking_code := trackingCode,
      status := "pending", assigned_to := none, assigned_at := none, resolved_at := none,
      counselor_notes := "", awaiting_response := true }
  (r, { db with reports := db.reports ++ [r] })

/-- Model of the POST branch of `admin_case_assignment`
(admin_portal/views.py): the client-supplied status string is stored
unvalidated whenever it is nonempty (`if status: report.status = status`);
`assigned_to` of the form data is `None` when absent or empty. -/
def admin_case_assignment (db : DB) (reportId : ℕ) (assignedTo : Option ℕ)
    (status : Option String) (notes : Option String) : DB :=
  match findReport db reportId with
  | none => db
  | some r =>
    let prevAssignee := r.assigned_to
    let prevStatus := r.status
    let r1 := { r with assigned_to := assignedTo }
    let r2 :=
      if r1.assigned_to.isSome ∧ r1.assigned_to ≠ prevAssignee then
        { r1 with assigned_at := some db.now }
      else if r1.assigned_to = none then { r1 with assigned_at := none }
      else r1
    let r3 :=
      match status with
      | some st =>
        if st = "" then r2
        else
          let ru := { r2 with status := st }
          if st = "resolved" then
            if prevStatus ≠ "resolved" then { ru with resolved_at := some db.now } else ru
          else if prevStatus = "resolved" then { ru with resolved_at := none }
          else ru
      | none => r2
    let r4 :=
      match notes with
      | some n => { r3 with counselor_notes := n }
      | none => r3
    { db with reports := db.reports.map fun x => if x.id = reportId then r4 else x }

/-! ## Word-bounded matching: scanner versus declarative occurrence -/

theorem boundaryRight_nil : boundaryRight [] := by
  intro d h
  simp at h

theorem boundaryLeft_nil : boundaryLeft [] := by
  intro d h
  simp at h

theorem phraseAt_iff (ph l : Str) :
    phraseAt ph l = true ↔ ∃ suf, l = ph ++ suf ∧ boundaryRight suf := by
  induction ph generalizing l with
  | nil =>
    cases l with
    | nil =>
      simp only [phraseAt, List.nil_append]
      constructor
      · intro _
        exact ⟨[], rfl, boundaryRight_nil⟩
      · intro _
        trivial
    | cons c cs =>
      simp only [phraseAt, List.nil_append, Bool.not_eq_true']
      constructor
      · intro h
        refine ⟨c :: cs, rfl, ?_⟩
        intro d hd
        simp only [List.head?_cons, Option.some.injEq] at hd
        exact hd ▸ h
      · rintro ⟨suf, rfl, hb⟩
        exact hb c (by simp)
  | cons p ps ih =>
    cases l with
    | nil =>
      simp only [phraseAt]
      constructor
      · intro h
        exact absurd h (by simp)
      · rintro ⟨suf, h, -⟩
        simp at h
    | cons c cs =>
      simp only [phraseAt, Bool.and_eq_true, beq_iff_eq]
      constructor
      · rintro ⟨rfl, h⟩
        obtain ⟨suf, rfl, hb⟩ := (ih cs).mp h
        exact ⟨suf, rfl, hb⟩
      · rintro ⟨suf, h, hb⟩
        simp only [List.cons_append, List.cons.injEq] at h
        obtain ⟨rfl, h2⟩ := h
        exact ⟨rfl, (ih cs).mpr ⟨suf, h2, hb⟩⟩

theorem goWB_iff (ph : Str) (hph : ph ≠ []) (s : Str) (b : Bool) :
    goWB ph b s = true ↔
      ∃ pre suf, s = pre ++ ph ++ suf ∧ (pre = [] → b = true) ∧ boundaryLeft pre ∧
        boundaryRight suf := by
  induction s generalizing b with
  | nil =>
    simp only [goWB]
    constructor
    · intro h
      exact absurd h (by simp)
    · rintro ⟨pre, suf, h, -⟩
      exfalso
      rcases List.append_eq_nil.mp h.symm with ⟨h1, -⟩
      rcases List.append_eq_nil.mp h1 with ⟨-, h3⟩
      exact hph h3
  | cons c cs ih =>
    simp only [goWB, Bool.or_eq_true, Bool.and_eq_true]
    constructor
    · rintro (⟨hb, hat⟩ | htail)
      · obtain ⟨suf, heq, hbr⟩ := (phraseAt_iff ph (c :: cs)).mp hat
        exact ⟨[], suf, by simpa using heq, fun _ => hb, boundaryLeft_nil, hbr⟩
      · obtain ⟨pre, suf, heq, hpre, hbl, hbr⟩ := (ih (!isWordChar c)).mp htail
        refine ⟨c :: pre, suf, by simp [heq], by simp, ?_, hbr⟩
        intro d hd
        cases pre with
        | nil =>
          simp only [List.getLast?_singleton, Option.some.injEq] at hd
          have := hpre rfl
          simpa [← hd] using this
        | cons q qs =>
          have : (c :: q :: qs).getLast? = (q :: qs).getLast? := by
            simp [List.getLast?_cons_cons]
          rw [this] at hd
          exact hbl d hd
    · rintro ⟨pre, suf, heq, hpre, hbl, hbr⟩
      cases pre with
      | nil =>
        left
        refine ⟨hpre rfl, ?_⟩
        exact (phraseAt_iff ph (c :: cs)).mpr ⟨suf, by simpa using heq, hbr⟩
      | cons q qs =>
        right
        simp only [List.cons_append, List.cons.injEq] at heq
        obtain ⟨rfl, h2⟩ := heq
        refine (ih (!isWordChar c)).mpr ⟨qs, suf, h2, ?_, ?_, hbr⟩
        · intro hqs
          subst hqs
          have := hbl c (by simp)
          simp [this]
        · intro d hd
          cases qs with
          | nil => simp at hd
          | cons w ws =>
            have : (c :: w :: ws).getLast? = (w :: ws).getLast? := by
              simp [List.getLast?_cons_cons]
            exact hbl d (this ▸ hd)

theorem hasWB_iff (ph : Str) (hph : ph ≠ []) (s : Str) :
    hasWB ph s = true ↔ WBOccurs ph s := by
  unfold hasWB WBOccurs
  rw [goWB_iff ph hph s true]
  constructor
  · rintro ⟨pre, suf, h, -, hbl, hbr⟩
    exact ⟨pre, suf, h, hbl, hbr⟩
  · rintro ⟨pre, suf, h, hbl, hbr⟩
    exact ⟨pre, suf, h, fun _ => rfl, hbl, hbr⟩

theorem wbOccurs_prepend {ph s : Str} (h : WBOccurs ph s) {t : Str}
    (ht : boundaryLeft t) : WBOccurs ph (t ++ s) := by
  obtain ⟨pre, suf, rfl, hbl, hbr⟩ := h
  refine ⟨t ++ pre, suf, by simp, ?_, hbr⟩
  intro d hd
  rw [List.getLast?_append] at hd
  cases hpre : pre.getLast? with
  | some x =>
    rw [hpre] at hd
    simp only [Option.or, Option.some.injEq] at hd
    exact hd ▸ hbl x hpre
  | none =>
    rw [hpre] at hd
    simp only [Option.or] at hd
    exact ht d hd

theorem wbOccurs_append {ph s : Str} (h : WBOccurs ph s) {t : Str}
    (ht : boundaryRight t) : WBOccurs ph (s ++ t) := by
  obtain ⟨pre, suf, rfl, hbl, hbr⟩ := h
  refine ⟨pre, suf ++ t, by simp, hbl, ?_⟩
  intro d hd
  rw [List.head?_append] at hd
  cases hsuf : suf.head? with
  | some x =>
    rw [hsuf] at hd
    simp only [Option.or, Option.some.injEq] at hd
    exact hd ▸ hbr x hsuf
  | none =>
    rw [hsuf] at hd
    simp only [Option.or] at hd
    exact ht d hd

theorem wbOccurs_unprepend {ph w s : Str} (hw : ∀ c ∈ w, isWordChar c = false)
    (hh : ∀ x, ph.head? = some x → isWordChar x = true) (hph : ph ≠ [])
    (h : WBOccurs ph (w ++ s)) : WBOccurs ph s := by
  obtain ⟨pre, suf, heq, hbl, hbr⟩ := h
  cases ph with
  | nil => exact absurd rfl hph
  | cons p ps =>
    have hpw : isWordChar p = true := hh p rfl
    have h2 : pre ++ ((p :: ps) ++ suf) = w ++ s := by
      rw [← List.append_assoc]
      exact heq.symm
    rcases List.append_eq_append_iff.mp h2 with ⟨t, hw1, h3⟩ | ⟨t, hp1, h3⟩
    · cases t with
      | nil =>
        simp only [List.nil_append] at h3
        exact ⟨[], suf, by simp [h3.symm], boundaryLeft_nil, hbr⟩
      | cons x xs =>
        have hx : x ∈ w := by
          rw [hw1]
          exact List.mem_append_right _ (by simp)
        rcases List.append_eq_append_iff.mp h3 with ⟨u, hu1, -⟩ | ⟨u, hu1, -⟩
        · have : x = p := by
            cases hu1
            rfl
          exact absurd hpw (by rw [← this, hw x hx]; simp)
        · have : p = x := by
            cases hu1
            rfl
          exact absurd hpw (by rw [this, hw x hx]; simp)
    · refine ⟨t, suf, by simp [h3], ?_, hbr⟩
      intro d hd
      refine hbl d ?_
      rw [hp1, List.getLast?_append, hd]
      simp

theorem wbOccurs_unappend {ph s w : Str} (hw : ∀ c ∈ w, isWordChar c = false)
    (hl : ∀ d, ph.getLast? = some d → isWordChar d = true) (hph : ph ≠ [])
    (h : WBOccurs ph (s ++ w)) : WBOccurs ph s := by
  obtain ⟨pre, suf, heq, hbl, hbr⟩ := h
  have h2 : pre ++ (ph ++ suf) = s ++ w := by
    rw [← List.append_assoc]
    exact heq.symm
  rcases List.append_eq_append_iff.mp h2 with ⟨t, hs1, h3⟩ | ⟨t, hp1, h3⟩
  · rcases List.append_eq_append_iff.mp h3 with ⟨u, hu1, hu2⟩ | ⟨u, hu1, hu2⟩
    · refine ⟨pre, u, by rw [hs1, hu1, List.append_assoc], hbl, ?_⟩
      intro d hd
      refine hbr d ?_
      rw [hu2, List.head?_append, hd]
      simp
    · cases u with
      | nil =>
        rw [List.append_nil] at hu1
        exact ⟨pre, [], by rw [hs1, hu1, List.append_nil], hbl, boundaryRight_nil⟩
      | cons y ys =>
        exfalso
        have hlast : ph.getLast? = some ((y :: ys).getLast (by simp)) := by
          rw [hu1, List.getLast?_append, List.getLast?_eq_getLast (y :: ys) (by simp)]
          simp
        have hmem : (y :: ys).getLast (by simp) ∈ w := by
          rw [hu2]
          exact List.mem_append_left _ (List.getLast_mem _)
        have := hl _ hlast
        rw [hw _ hmem] at this
        exact absurd this (by simp)
  · exfalso
    cases ph with
    | nil => exact hph rfl
    | cons p ps =>
      have hlast : (p :: ps).getLast? = some ((p :: ps).getLast (by simp)) :=
        List.getLast?_eq_getLast _ _
      have hmem : (p :: ps).getLast (by simp) ∈ w := by
        rw [h3]
        have : (p :: ps).getLast (by simp) ∈ (p :: ps) ++ suf :=
          List.mem_append_left _ (List.getLast_mem _)
        exact List.mem_append_right _ this
      have := hl _ hlast
      rw [hw _ hmem] at this
      exact absurd this (by simp)

theorem wbOccurs_split {ph a g b : Str} (hgood : GoodPhrase ph)
    (hgw : ∀ c ∈ g, isWordChar c = false) (hgx : ∃ c ∈ g, c ∉ ph)
    (h : WBOccurs ph (a ++ (g ++ b))) : WBOccurs ph a ∨ WBOccurs ph b := by
  obtain ⟨hph, hh, hl, -⟩ := hgood
  obtain ⟨pre, suf, heq, hbl, hbr⟩ := h
  have h2 : pre ++ (ph ++ suf) = a ++ (g ++ b) := by
    rw [← List.append_assoc]
    exact heq.symm
  rcases List.append_eq_append_iff.mp h2 with ⟨t, ha1, h3⟩ | ⟨t, hp1, h3⟩
  · rcases List.append_eq_append_iff.mp h3 with ⟨u, hu1, hu2⟩ | ⟨u, hu1, hu2⟩
    · left
      refine ⟨pre, u, by rw [ha1, hu1, List.append_assoc], hbl, ?_⟩
      intro d hd
      refine hbr d ?_
      rw [hu2, List.head?_append, hd]
      simp
    · cases u with
      | nil =>
        left
        rw [List.append_nil] at hu1
        exact ⟨pre, [], by rw [ha1, hu1, List.append_nil], hbl, boundaryRight_nil⟩
      | cons y ys =>
        exfalso
        rcases List.append_eq_append_iff.mp hu2 with ⟨e, he1, -⟩ | ⟨e, he1, -⟩
        · obtain ⟨c, hcg, hcp⟩ := hgx
          refine hcp ?_
          rw [hu1]
          refine List.mem_append_right _ ?_
          rw [he1]
          exact List.mem_append_left _ hcg
        · have hlast : ph.getLast? = some ((y :: ys).getLast (by simp)) := by
            rw [hu1, List.getLast?_append, List.getLast?_eq_getLast (y :: ys) (by simp)]
            simp
          have hmem : (y :: ys).getLast (by simp) ∈ g := by
            rw [he1]
            exact List.mem_append_left _ (List.getLast_mem _)
          have := hl _ hlast
          rw [hgw _ hmem] at this
          exact absurd this (by simp)
  · rcases List.append_eq_append_iff.mp h3 with ⟨u, hu1, hu2⟩ | ⟨u, hu1, hu2⟩
    · right
      refine ⟨u, suf, by rw [hu2, List.append_assoc], ?_, hbr⟩
      intro d hd
      refine hbl d ?_
      rw [hp1, hu1, List.getLast?_append, List.getLast?_append, hd]
      simp
    · cases u with
      | nil =>
        right
        simp only [List.nil_append] at hu2
        exact ⟨[], suf, by simp [hu2], boundaryLeft_nil, hbr⟩
      | cons y ys =>
        exfalso
        cases ph with
        | nil => exact hph rfl
        | cons p ps =>
          have hpw : isWordChar p = true := hh p rfl
          have hyg : y ∈ g := by
            rw [hu1]
            exact List.mem_append_right _ (by simp)
          rcases List.append_eq_append_iff.mp hu2 with ⟨f, hf1, -⟩ | ⟨f, hf1, -⟩
          · have : y = p := by
              cases hf1
              rfl
            rw [← this, hgw y hyg] at hpw
            exact absurd hpw (by simp)
          · have : p = y := by
              cases hf1
              rfl
            rw [this, hgw y hyg] at hpw
            exact absurd hpw (by simp)

/-! ## Whitespace, lowercasing and joining versus occurrences -/

theorem isPySpace_not_word {c : Char} (h : isPySpace c = true) : isWordChar c = false := by
  unfold isPySpace at h
  simp only [Bool.or_eq_true, beq_iff_eq] at h
  rcases h with (((((((((((h | h) | h) | h) | h) | h) | h) | h) | h) | h) | h) | h) <;>
    subst h <;> decide

theorem toLower_of_pySpace {c : Char} (h : isPySpace c = true) : Char.toLower c = c := by
  unfold isPySpace at h
  simp only [Bool.or_eq_true, beq_iff_eq] at h
  rcases h with (((((((((((h | h) | h) | h) | h) | h) | h) | h) | h) | h) | h) | h) <;>
    subst h <;> decide

theorem lowerStr_append (a b : Str) : lowerStr (a ++ b) = lowerStr a ++ lowerStr b :=
  List.map_append _ a b

theorem hasWB_nil (ph : Str) : hasWB ph [] = false := rfl

theorem not_wbOccurs_nil {ph : Str} (hph : ph ≠ []) : ¬WBOccurs ph [] := by
  rintro ⟨pre, suf, h, -⟩
  rcases List.append_eq_nil.mp h.symm with ⟨h1, -⟩
  rcases List.append_eq_nil.mp h1 with ⟨-, h3⟩
  exact hph h3

theorem pyStrip_decomp (s : Str) :
    ∃ w1 w2, s = w1 ++ pyStrip s ++ w2 ∧ (∀ c ∈ w1, isPySpace c = true) ∧
      ∀ c ∈ w2, isPySpace c = true := by
  refine ⟨s.takeWhile isPySpace, ((lstrip s).reverse.takeWhile isPySpace).reverse, ?_, ?_, ?_⟩
  · conv_lhs => rw [← List.takeWhile_append_dropWhile isPySpace s]
    rw [List.append_assoc]
    congr 1
    show lstrip s = pyStrip s ++ ((lstrip s).reverse.takeWhile isPySpace).reverse
    unfold pyStrip rstrip
    conv_lhs => rw [← List.reverse_reverse (lstrip s),
      ← List.takeWhile_append_dropWhile isPySpace (lstrip s).reverse]
    rw [List.reverse_append]
  · intro c hc
    exact List.mem_takeWhile_imp hc
  · intro c hc
    rw [List.mem_reverse] at hc
    exact List.mem_takeWhile_imp hc

theorem getLast?_some_mem {t : Str} {d : Char} (hd : t.getLast? = some d) : d ∈ t := by
  obtain ⟨hne, rfl⟩ := List.mem_getLast?_eq_getLast (by simp [hd] : d ∈ t.getLast?)
  exact List.getLast_mem hne

theorem head?_some_mem {t : Str} {d : Char} (hd : t.head? = some d) : d ∈ t := by
  cases t with
  | nil => simp at hd
  | cons x xs =>
    simp only [List.head?_cons, Option.some.injEq] at hd
    simp [hd]

theorem boundaryLeft_of_nonword {t : Str} (h : ∀ c ∈ t, isWordChar c = false) :
    boundaryLeft t := by
  intro d hd
  exact h d (getLast?_some_mem hd)

theorem boundaryRight_of_nonword {t : Str} (h : ∀ c ∈ t, isWordChar c = false) :
    boundaryRight t := by
  intro d hd
  exact h d (head?_some_mem hd)

theorem lower_pySpace_nonword {w : Str} (h : ∀ c ∈ w, isPySpace c = true) :
    ∀ c ∈ lowerStr w, isWordChar c = false := by
  intro c hc
  obtain ⟨x, hx, rfl⟩ := List.mem_map.mp hc
  rw [toLower_of_pySpace (h x hx)]
  exact isPySpace_not_word (h x hx)

theorem wbOccurs_lower_strip {ph : Str} (hgood : GoodPhrase ph) (s : Str) :
    WBOccurs ph (lowerStr (pyStrip s)) ↔ WBOccurs ph (lowerStr s) := by
  obtain ⟨w1, w2, hdec, hw1, hw2⟩ := pyStrip_decomp s
  obtain ⟨hph, hh, hl, -⟩ := hgood
  have hsplit : lowerStr s = lowerStr w1 ++ (lowerStr (pyStrip s) ++ lowerStr w2) := by
    conv_lhs => rw [hdec]
    rw [lowerStr_append, lowerStr_append, List.append_assoc]
  constructor
  · intro h
    rw [hsplit]
    exact wbOccurs_prepend
      (wbOccurs_append h (boundaryRight_of_nonword (lower_pySpace_nonword hw2)))
      (boundaryLeft_of_nonword (lower_pySpace_nonword hw1))
  · intro h
    rw [hsplit] at h
    have h2 := wbOccurs_unprepend (lower_pySpace_nonword hw1) hh hph h
    exact wbOccurs_unappend (lower_pySpace_nonword hw2) hl hph h2

theorem lowerStr_pyJoinNl (parts : List Str) :
    lowerStr (pyJoinNl parts) = pyJoinNl (parts.map lowerStr) := by
  induction parts with
  | nil => rfl
  | cons c rest ih =>
    cases rest with
    | nil => rfl
    | cons c2 cs =>
      show lowerStr (c ++ (' ' :: '\n' :: pyJoinNl (c2 :: cs))) = _
      rw [lowerStr_append]
      show _ = lowerStr c ++ (' ' :: '\n' :: pyJoinNl ((c2 :: cs).map lowerStr))
      rw [← ih]
      rfl

theorem wbOccurs_lower_join {ph : Str} (hgood : GoodPhrase ph) (parts : List Str) :
    WBOccurs ph (lowerStr (pyJoinNl parts)) ↔ ∃ c ∈ parts, WBOccurs ph (lowerStr c) := by
  rw [lowerStr_pyJoinNl]
  induction parts with
  | nil =>
    simp only [List.map_nil, List.not_mem_nil, false_and, exists_false, iff_false]
    show ¬WBOccurs ph []
    exact not_wbOccurs_nil hgood.1
  | cons c rest ih =>
    cases rest with
    | nil => simp [pyJoinNl]
    | cons c2 cs =>
      have hgw : ∀ x ∈ [' ', '\n'], isWordChar x = false := by decide
      have hshape : pyJoinNl ((c :: c2 :: cs).map lowerStr) =
          lowerStr c ++ ([' ', '\n'] ++ pyJoinNl ((c2 :: cs).map lowerStr)) := rfl
      constructor
      · intro h
        rw [hshape] at h
        rcases wbOccurs_split hgood hgw
          ⟨'\n', by simp, hgood.2.2.2⟩ h with h1 | h1
        · exact ⟨c, by simp, h1⟩
        · obtain ⟨x, hx, hocc⟩ := ih.mp h1
          exact ⟨x, by simp [List.mem_cons.mp hx], hocc⟩
      · rintro ⟨x, hx, hocc⟩
        rw [hshape]
        rcases List.mem_cons.mp hx with rfl | hx2
        · refine wbOccurs_append hocc ?_
          intro d hd
          simp only [List.cons_append, List.head?_cons, Option.some.injEq] at hd
          subst hd
          decide
        · have h1 : WBOccurs ph (pyJoinNl ((c2 :: cs).map lowerStr)) :=
            ih.mpr ⟨x, hx2, hocc⟩
          have h2 := wbOccurs_prepend h1 (t := lowerStr c ++ [' ', '\n']) ?_
          · rw [List.append_assoc] at h2
            exact h2
          · intro d hd
            rw [List.getLast?_append] at hd
            have he : ([' ', '\n'] : Str).getLast? = some '\n' := rfl
            rw [he] at hd
            simp only [Option.or, Option.some.injEq] at hd
            subst hd
            decide

theorem anyHit_nil (phs : List Str) : anyHit phs [] = false := by
  simp [anyHit, lowerStr, hasWB, goWB]

theorem combinedContext_empty {ctx : List Str} (h : (combinedContext ctx).isEmpty = true) :
    ∀ c ∈ ctx, c = [] := by
  intro c hc
  by_contra hne
  have hmem : c ∈ ctxFilter ctx := by
    unfold ctxFilter
    refine List.mem_filter.mpr ⟨hc, ?_⟩
    simpa using hne
  unfold combinedContext at h
  rw [List.isEmpty_iff] at h
  cases hf : ctxFilter ctx with
  | nil => rw [hf] at hmem; exact absurd hmem (List.not_mem_nil c)
  | cons a as =>
    have ha : ¬a.isEmpty = true := by
      have : a ∈ ctxFilter ctx := by rw [hf]; simp
      simpa using (List.mem_filter.mp this).2
    rw [hf] at h
    cases as with
    | nil =>
      rw [List.isEmpty_iff] at ha
      exact ha (by simpa [pyJoinNl] using h)
    | cons a2 as2 =>
      have : a ++ (' ' :: '\n' :: pyJoinNl (a2 :: as2)) = [] := by
        simp only [pyJoinNl] at h
        exact h
      rcases List.append_eq_nil.mp this with ⟨-, h2⟩
      simp at h2

theorem wbOccurs_target_text {ph : Str} (hgood : GoodPhrase ph) (m : Str)
    (ctx : List Str) :
    WBOccurs ph (lowerStr (emotionTargetText m ctx)) ↔
      WBOccurs ph (lowerStr m) ∨ ∃ c ∈ ctx, WBOccurs ph (lowerStr c) := by
  have hglue1 : Char.toLower ' ' = ' ' := by decide
  have hglue2 : Char.toLower '\n' = '\n' := by decide
  by_cases hcc : (combinedContext ctx).isEmpty
  · have htgt : emotionTargetText m ctx = pyStrip m := by
      unfold emotionTargetText
      simp [hcc]
    rw [htgt, wbOccurs_lower_strip hgood]
    constructor
    · exact Or.inl
    · rintro (h | ⟨c, hc, hocc⟩)
      · exact h
      · rw [combinedContext_empty hcc c hc] at hocc
        exact absurd hocc (not_wbOccurs_nil hgood.1)
  · have htgt : emotionTargetText m ctx =
        combinedContext ctx ++ (' ' :: '\n' :: ' ' :: pyStrip m) := by
      unfold emotionTargetText
      simp [hcc]
    have hlow : lowerStr (emotionTargetText m ctx) =
        lowerStr (combinedContext ctx) ++ ([' ', '\n', ' '] ++ lowerStr (pyStrip m)) := by
      rw [htgt, lowerStr_append]
      simp [lowerStr, hglue1, hglue2]
    rw [hlow]
    constructor
    · intro h
      rcases wbOccurs_split hgood (by decide) ⟨'\n', by simp, hgood.2.2.2⟩ h with h1 | h1
      · right
        unfold combinedContext at h1
        obtain ⟨c, hc, hocc⟩ := (wbOccurs_lower_join hgood (ctxFilter ctx)).mp h1
        exact ⟨c, (List.mem_filter.mp hc).1, hocc⟩
      · left
        exact (wbOccurs_lower_strip hgood m).mp h1
    · rintro (h | ⟨c, hc, hocc⟩)
      · have h1 := (wbOccurs_lower_strip hgood m).mpr h
        have h2 := wbOccurs_prepend h1
          (t := lowerStr (combinedContext ctx) ++ [' ', '\n', ' ']) ?_
        · rw [List.append_assoc] at h2
          exact h2
        · intro d hd
          rw [List.getLast?_append] at hd
          have he : ([' ', '\n', ' '] : Str).getLast? = some ' ' := rfl
          rw [he] at hd
          simp only [Option.or, Option.some.injEq] at hd
          subst hd
          decide
      · have hcne : ¬c.isEmpty = true := by
          intro he
          rw [List.isEmpty_iff] at he
          subst he
          exact absurd hocc (not_wbOccurs_nil hgood.1)
        have hmem : c ∈ ctxFilter ctx := by
          unfold ctxFilter
          exact List.mem_filter.mpr ⟨hc, by simpa using hcne⟩
        have h1 : WBOccurs ph (lowerStr (combinedContext ctx)) := by
          unfold combinedContext
          exact (wbOccurs_lower_join hgood (ctxFilter ctx)).mpr ⟨c, hmem, hocc⟩
        refine wbOccurs_append h1 ?_
        intro d hd
        simp only [List.cons_append, List.head?_cons, Option.some.injEq] at hd
        subst hd
        decide

theorem anyHit_target_text {phs : List Str} (hgood : ∀ p ∈ phs, GoodPhrase p)
    (m : Str) (ctx : List Str) :
    anyHit phs (emotionTargetText m ctx) = true ↔
      anyHit phs m = true ∨ ∃ c ∈ ctx, anyHit phs c = true := by
  unfold anyHit
  simp only [List.any_eq_true]
  constructor
  · rintro ⟨p, hp, hw⟩
    have hg := hgood p hp
    rcases (wbOccurs_target_text hg m ctx).mp ((hasWB_iff p hg.1 _).mp hw) with h | ⟨c, hc, h⟩
    · exact Or.inl ⟨p, hp, (hasWB_iff p hg.1 _).mpr h⟩
    · exact Or.inr ⟨c, hc, p, hp, (hasWB_iff p hg.1 _).mpr h⟩
  · rintro (⟨p, hp, hw⟩ | ⟨c, hc, p, hp, hw⟩)
    · have hg := hgood p hp
      exact ⟨p, hp, (hasWB_iff p hg.1 _).mpr
        ((wbOccurs_target_text hg m ctx).mpr (Or.inl ((hasWB_iff p hg.1 _).mp hw)))⟩
    · have hg := hgood p hp
      exact ⟨p, hp, (hasWB_iff p hg.1 _).mpr
        ((wbOccurs_target_text hg m ctx).mpr (Or.inr ⟨c, hc, (hasWB_iff p hg.1 _).mp hw⟩))⟩

theorem criticalPhrases_good : ∀ p ∈ criticalPhrases, GoodPhrase p := by decide

theorem criticalHit_target (m : Str) (ctx : List Str) :
    criticalHit (emotionTargetText m ctx) = true ↔
      criticalHit m = true ∨ ∃ c ∈ ctx, criticalHit c = true :=
  anyHit_target_text criticalPhrases_good m ctx

/-! ## Risk-level characterization -/

theorem analyze_emotion_risk_eq (sentiment : Str → ℚ) (m : Str) (ctx : List Str) :
    (analyze_emotion sentiment m ctx).risk_level = (riskAndExpl sentiment m ctx).1 := rfl

theorem analyze_emotion_label_eq (sentiment : Str → ℚ) (m : Str) (ctx : List Str) :
    (analyze_emotion sentiment m ctx).label = (emotionLabelAndExpl sentiment m ctx).1 := rfl

/-- C4.  For every input message and context, if the message or any context
text matches a critical self-harm keyword pattern (suicide/suicidal, kill
myself, self-harm, end my life, hurt myself, give up, no reason to live),
`analyze_emotion` returns risk level critical; the risk level is also
critical whenever the blended polarity (0.7 times the message sentiment plus
0.3 times the context sentiment) is below -0.45, elevated when the blended
polarity is below -0.25 or the label is anxious or stressed, and normal
otherwise. -/
theorem c4_analyze_emotion_risk_rules (sentiment : Str → ℚ) (message : Str)
    (context : List Str) :
    (analyze_emotion sentiment message context).risk_level =
      if criticalHit message = true ∨ ∃ c ∈ context, criticalHit c = true then "critical"
      else if blendedPolarity sentiment message context < -(9 / 20) then "critical"
      else if blendedPolarity sentiment message context < -(1 / 4) ∨
          (analyze_emotion sentiment message context).label = "anxious" ∨
          (analyze_emotion sentiment message context).label = "stressed" then "elevated"
      else "normal" := by
  rw [analyze_emotion_risk_eq, analyze_emotion_label_eq]
  by_cases hcr : criticalHit (emotionTargetText message context) = true
  · have h2 := (criticalHit_target message context).mp hcr
    rw [if_pos h2]
    unfold riskAndExpl
    simp [hcr]
  · have h2 : ¬(criticalHit message = true ∨ ∃ c ∈ context, criticalHit c = true) :=
      fun h => hcr ((criticalHit_target message context).mpr h)
    rw [if_neg h2]
    unfold riskAndExpl
    simp only [Bool.not_eq_true] at hcr
    simp only [hcr, Bool.false_eq_true, if_false]
    split_ifs <;> rfl

/-! ## Emotion label and risk value sets -/

theorem chatMessage_emotion_eq (db : DB) (report sender recipient : ℕ) (message : String)
    (parent : Option ℕ) (attachment : Option String) (insight : Option EmotionInsight) :
    (chatMessage_create db report sender recipient message parent attachment insight).1.emotion =
      (insightExtras insight).1 := rfl

theorem chatMessage_risk_eq (db : DB) (report sender recipient : ℕ) (message : String)
    (parent : Option ℕ) (attachment : Option String) (insight : Option EmotionInsight) :
    (chatMessage_create db report sender recipient message parent attachment
        insight).1.risk_level = (insightExtras insight).2.2.2.1 := rfl

/-- C7.  `analyze_emotion` always returns a label in
{anxious, angry, stressed, calm, neutral} and a risk level in
{normal, elevated, critical}; and `ChatMessage.create` stores an emotion in
the `EmotionLabel` value set and a risk level in the `RiskLevel` value set,
coercing out-of-set insight values to neutral and normal respectively. -/
theorem c7_emotion_value_sets :
    (∀ (sentiment : Str → ℚ) (m : Str) (ctx : List Str),
        (analyze_emotion sentiment m ctx).label ∈ emotionLabelValues ∧
          (analyze_emotion sentiment m ctx).risk_level ∈ riskLevelValues) ∧
      ∀ (db : DB) (report sender recipient : ℕ) (message : String) (parent : Option ℕ)
        (attachment : Option String) (insight : Option EmotionInsight),
        ((chatMessage_create db report sender recipient message parent attachment
              insight).1.emotion ∈ emotionLabelValues ∧
          (chatMessage_create db report sender recipient message parent attachment
              insight).1.risk_level ∈ riskLevelValues) ∧
          (∀ i, insight = some i → i.label ∉ emotionLabelValues →
            (chatMessage_create db report sender recipient message parent attachment
                insight).1.emotion = "neutral") ∧
          ∀ i, insight = some i → i.risk_level ∉ riskLevelValues →
            (chatMessage_create db report sender recipient message parent attachment
                insight).1.risk_level = "normal" := by
  constructor
  · intro sentiment m ctx
    constructor
    · rw [analyze_emotion_label_eq]
      unfold emotionLabelAndExpl
      dsimp only
      split_ifs <;> simp [emotionLabelValues]
    · rw [analyze_emotion_risk_eq]
      unfold riskAndExpl
      dsimp only
      split_ifs <;> simp [riskLevelValues]
  · intro db report sender recipient message parent attachment insight
    refine ⟨⟨?_, ?_⟩, ?_, ?_⟩
    · rw [chatMessage_emotion_eq]
      unfold insightExtras
      cases insight with
      | none => simp [emotionLabelValues]
      | some i =>
        dsimp only
        split_ifs with h <;> simp_all [emotionLabelValues]
    · rw [chatMessage_risk_eq]
      unfold insightExtras
      cases insight with
      | none => simp [riskLevelValues]
      | some i =>
        dsimp only
        split_ifs with h <;> simp_all [riskLevelValues]
    · rintro i rfl hout
      rw [chatMessage_emotion_eq]
      unfold insightExtras
      simp [hout]
    · rintro i rfl hout
      rw [chatMessage_risk_eq]
      unfold insightExtras
      simp [hout]

/-- Witness for C7: a concrete out-of-set insight is coerced to neutral and
normal, and a concrete analysis lands in the value sets. -/
theorem c7_emotion_value_sets_witness :
    ((chatMessage_create
          { users := [], profiles := [], reports := [], messages := [], keys := [],
            nextKeyId := 0, nextMsgId := 0, now := 0 } 1 2 3 "hi" none none
          (some { label := "bogus", confidence := 0, polarity := 0,
                  risk_level := "weird", explanation := "x" })).1.emotion = "neutral") ∧
      (chatMessage_create
          { users := [], profiles := [], reports := [], messages := [], keys := [],
            nextKeyId := 0, nextMsgId := 0, now := 0 } 1 2 3 "hi" none none
          (some { label := "bogus", confidence := 0, polarity := 0,
                  risk_level := "weird", explanation := "x" })).1.risk_level = "normal" := by
  constructor
  · exact (c7_emotion_value_sets.2 _ 1 2 3 "hi" none none _).2.1 _ rfl (by decide)
  · exact (c7_emotion_value_sets.2 _ 1 2 3 "hi" none none _).2.2 _ rfl (by decide)

/-! ## Confidence bounds -/

theorem meanSentiment_single_abs {sentiment : Str → ℚ} (h : ∀ t, |sentiment t| ≤ 1)
    (cc : Str) : |meanSentiment sentiment [cc]| ≤ 1 := by
  unfold meanSentiment
  by_cases hx : sentiment cc = 0
  · simp [hx]
  · simp only [List.map_cons, List.map_nil, List.filter, hx]
    simp [hx]
    exact h cc

theorem abs_blendedPolarity_le_one {sentiment : Str → ℚ} (h : ∀ t, |sentiment t| ≤ 1)
    (m : Str) (ctx : List Str) : |blendedPolarity sentiment m ctx| ≤ 1 := by
  unfold blendedPolarity
  dsimp only
  have hpa : |sentiment (pyStrip m)| ≤ 1 := h _
  have hcpa : |if (combinedContext ctx).isEmpty then sentiment (pyStrip m)
      else meanSentiment sentiment [combinedContext ctx]| ≤ 1 := by
    split_ifs
    · exact hpa
    · exact meanSentiment_single_abs h _
  set p := sentiment (pyStrip m)
  set cp := if (combinedContext ctx).isEmpty then sentiment (pyStrip m)
    else meanSentiment sentiment [combinedContext ctx]
  have h710 : |(7 / 10 : ℚ)| = 7 / 10 := by norm_num
  have h310 : |(3 / 10 : ℚ)| = 3 / 10 := by norm_num
  calc |p * (7 / 10) + cp * (3 / 10)| ≤ |p * (7 / 10)| + |cp * (3 / 10)| := abs_add _ _
    _ = |p| * (7 / 10) + |cp| * (3 / 10) := by rw [abs_mul, abs_mul, h710, h310]
    _ ≤ 1 * (7 / 10) + 1 * (3 / 10) := by
        have := abs_nonneg p
        have := abs_nonneg cp
        nlinarith
    _ = 1 := by norm_num

theorem roundHalfEven_bounds {q : ℚ} {lo hi : ℤ} (hlo : (lo : ℚ) ≤ q)
    (hhi : q ≤ (hi : ℚ)) : lo ≤ roundHalfEven q ∧ roundHalfEven q ≤ hi := by
  unfold roundHalfEven
  dsimp only
  have hfl : lo ≤ ⌊q⌋ := Int.le_floor.mpr hlo
  have hfu : ⌊q⌋ ≤ hi := by
    have := Int.floor_le_floor hhi
    simpa using this
  constructor
  · split_ifs <;> omega
  · split_ifs with h1 h2 h3
    · exact hfu
    · have hq : (⌊q⌋ : ℚ) < q := by linarith
      have hlt : (⌊q⌋ : ℚ) < (hi : ℚ) := lt_of_lt_of_le hq hhi
      have : ⌊q⌋ < hi := by exact_mod_cast hlt
      omega
    · exact hfu
    · have hr : q - (⌊q⌋ : ℚ) = 1 / 2 := le_antisymm (not_lt.mp h2) (not_lt.mp h1)
      have h3 : (⌊q⌋ : ℚ) + 1 / 2 ≤ (hi : ℚ) := by linarith
      have hlt : (⌊q⌋ : ℚ) < (hi : ℚ) := by linarith
      have : ⌊q⌋ < hi := by exact_mod_cast hlt
      omega

theorem round3_bounds {q : ℚ} (h1 : 12 / 25 ≤ q) (h2 : q ≤ 19 / 20) :
    12 / 25 ≤ round3 q ∧ round3 q ≤ 19 / 20 := by
  unfold round3
  have hb := @roundHalfEven_bounds (1000 * q) 480 950
    (by push_cast; linarith) (by push_cast; linarith)
  constructor
  · have hc : (480 : ℚ) ≤ (roundHalfEven (1000 * q) : ℚ) := by exact_mod_cast hb.1
    linarith
  · have hc : ((roundHalfEven (1000 * q) : ℚ)) ≤ 950 := by exact_mod_cast hb.2
    linarith

/-- C10.  Assuming every underlying sentiment score lies in [-1, 1], the
confidence returned by `analyze_emotion` lies in [0.48, 0.95] and equals the
minimum of 0.95 and 0.4 plus a keyword boost of 0.35 (present exactly when
any explanation was recorded) plus 0.4 times the maximum of the absolute
blended polarity and 0.2, rounded to three decimal places. -/
theorem c10_confidence_bounds (sentiment : Str → ℚ) (hs : ∀ t, |sentiment t| ≤ 1)
    (message : Str) (context : List Str) :
    (12 / 25 ≤ (analyze_emotion sentiment message context).confidence ∧
      (analyze_emotion sentiment message context).confidence ≤ 19 / 20) ∧
      (analyze_emotion sentiment message context).confidence =
        round3 (min (19 / 20)
          (2 / 5 + (if (riskAndExpl sentiment message context).2 = [] then 0 else 7 / 20) +
            2 / 5 * max |blendedPolarity sentiment message context| (1 / 5))) := by
  have hconf : (analyze_emotion sentiment message context).confidence =
      round3 (min (19 / 20)
        (2 / 5 + (if (riskAndExpl sentiment message context).2.isEmpty then (0 : ℚ) else 7 / 20) +
          max |blendedPolarity sentiment message context| (1 / 5) * (2 / 5))) := rfl
  have hif : (if (riskAndExpl sentiment message context).2.isEmpty then (0 : ℚ) else 7 / 20) =
      if (riskAndExpl sentiment message context).2 = [] then (0 : ℚ) else 7 / 20 := by
    by_cases he : (riskAndExpl sentiment message context).2 = [] <;>
      simp [List.isEmpty_iff, he]
  constructor
  · rw [hconf]
    set base := max |blendedPolarity sentiment message context| (1 / 5) with hbase
    set boost := if (riskAndExpl sentiment message context).2.isEmpty then (0 : ℚ) else 7 / 20
      with hboost
    have hb1 : 1 / 5 ≤ base := le_max_right _ _
    have hb2 : base ≤ 1 := by
      rw [hbase]
      exact max_le (abs_blendedPolarity_le_one hs message context) (by norm_num)
    have hk1 : 0 ≤ boost := by
      rw [hboost]
      split_ifs <;> norm_num
    have hk2 : boost ≤ 7 / 20 := by
      rw [hboost]
      split_ifs <;> norm_num
    have harg1 : 12 / 25 ≤ min (19 / 20) (2 / 5 + boost + base * (2 / 5)) := by
      refine le_min (by norm_num) ?_
      nlinarith
    have harg2 : min (19 / 20) (2 / 5 + boost + base * (2 / 5)) ≤ 19 / 20 :=
      min_le_left _ _
    exact round3_bounds harg1 harg2
  · rw [hconf, hif]
    congr 1
    rw [mul_comm]

/-- Witness for C10 at the zero sentiment oracle on a concrete message. -/
theorem c10_confidence_bounds_witness :
    ((12 / 25 ≤ (analyze_emotion (fun _ => 0) (strChars "hello") []).confidence ∧
      (analyze_emotion (fun _ => 0) (strChars "hello") []).confidence ≤ 19 / 20) ∧
      (analyze_emotion (fun _ => 0) (strChars "hello") []).confidence =
        round3 (min (19 / 20)
          (2 / 5 + (if (riskAndExpl (fun _ => 0) (strChars "hello") []).2 = [] then 0 else 7 / 20) +
            2 / 5 * max |blendedPolarity (fun _ => 0) (strChars "hello") []| (1 / 5)))) :=
  c10_confidence_bounds (fun _ => 0) (fun _ => by norm_num) (strChars "hello") []

/-! ## Reply suggestion loop invariants -/

theorem addRuleResponses_spec (limit : ℕ) (tone : String) :
    ∀ (rs : List String) (acc : List Suggestion), acc.length < limit →
      ((addRuleResponses limit tone rs acc).1.length ≤ limit ∧
        ((addRuleResponses limit tone rs acc).2 = true →
          (addRuleResponses limit tone rs acc).1.length = limit) ∧
        ((addRuleResponses limit tone rs acc).2 = false →
          (addRuleResponses limit tone rs acc).1.length < limit) ∧
        acc.length ≤ (addRuleResponses limit tone rs acc).1.length) := by
  intro rs
  induction rs with
  | nil =>
    intro acc hacc
    exact ⟨le_of_lt hacc, by simp [addRuleResponses], fun _ => hacc, le_refl _⟩
  | cons r rs2 ih =>
    intro acc hacc
    unfold addRuleResponses
    dsimp only
    by_cases hstop : limit ≤ (acc ++ [(⟨r, tone⟩ : Suggestion)]).length
    · rw [if_pos hstop]
      have hlen : (acc ++ [(⟨r, tone⟩ : Suggestion)]).length = acc.length + 1 := by simp
      have : (acc ++ [(⟨r, tone⟩ : Suggestion)]).length = limit := by omega
      exact ⟨le_of_eq this, fun _ => this, by simp, by simp⟩
    · rw [if_neg hstop]
      have hlt : (acc ++ [(⟨r, tone⟩ : Suggestion)]).length < limit := lt_of_not_le hstop
      obtain ⟨h1, h2, h3, h4⟩ := ih (acc ++ [⟨r, tone⟩]) hlt
      refine ⟨h1, h2, h3, ?_⟩
      calc acc.length ≤ (acc ++ [(⟨r, tone⟩ : Suggestion)]).length := by simp
        _ ≤ _ := h4

theorem ruleLoop_spec (limit : ℕ) (normalized : Str) :
    ∀ (rules : List SuggestionRule) (acc : List Suggestion), acc.length < limit →
      ((ruleLoop limit normalized rules acc).1.length ≤ limit ∧
        ((ruleLoop limit normalized rules acc).2 = true →
          (ruleLoop limit normalized rules acc).1.length = limit) ∧
        ((ruleLoop limit normalized rules acc).2 = false →
          (ruleLoop limit normalized rules acc).1.length < limit)) := by
  intro rules
  induction rules with
  | nil =>
    intro acc hacc
    exact ⟨le_of_lt hacc, by simp [ruleLoop], fun _ => hacc⟩
  | cons rule rest ih =>
    intro acc hacc
    unfold ruleLoop
    dsimp only
    by_cases hm : ruleMatches normalized rule = true
    · rw [if_pos hm]
      obtain ⟨h1, h2, h3, -⟩ := addRuleResponses_spec limit rule.tone rule.responses acc hacc
      by_cases hflag : (addRuleResponses limit rule.tone rule.responses acc).2 = true
      · rw [if_pos hflag]
        exact ⟨h1, fun _ => h2 hflag, fun hc => absurd hflag (by simp [hc])⟩
      · rw [if_neg hflag]
        exact ih _ (h3 (by simpa using hflag))
    · rw [if_neg hm]
      exact ih acc hacc

theorem fillFallback_mono (limit : ℕ) :
    ∀ (fb : List String) (acc : List Suggestion),
      acc.length ≤ (fillFallback limit fb acc).length := by
  intro fb
  induction fb with
  | nil => intro acc; exact le_refl _
  | cons r rs ih =>
    intro acc
    unfold fillFallback
    dsimp only
    by_cases hstop : limit ≤ (acc ++ [(⟨r, "Supportive"⟩ : Suggestion)]).length
    · rw [if_pos hstop]
      simp
    · rw [if_neg hstop]
      calc acc.length ≤ (acc ++ [(⟨r, "Supportive"⟩ : Suggestion)]).length := by simp
        _ ≤ _ := ih _

theorem fillFallback_le (limit : ℕ) :
    ∀ (fb : List String) (acc : List Suggestion), acc.length < limit →
      (fillFallback limit fb acc).length ≤ limit := by
  intro fb
  induction fb with
  | nil => intro acc hacc; exact le_of_lt hacc
  | cons r rs ih =>
    intro acc hacc
    unfold fillFallback
    dsimp only
    by_cases hstop : limit ≤ (acc ++ [(⟨r, "Supportive"⟩ : Suggestion)]).length
    · rw [if_pos hstop]
      have : (acc ++ [(⟨r, "Supportive"⟩ : Suggestion)]).length = acc.length + 1 := by simp
      omega
    · rw [if_neg hstop]
      exact ih _ (lt_of_not_le hstop)

theorem pyStrip_eq_nil_iff (s : Str) :
    pyStrip s = [] ↔ ∀ c ∈ s, isPySpace c = true := by
  constructor
  · intro h
    obtain ⟨w1, w2, hdec, hw1, hw2⟩ := pyStrip_decomp s
    rw [h] at hdec
    intro c hc
    rw [hdec] at hc
    simp only [List.append_nil, List.mem_append] at hc
    rcases hc with hc | hc
    · exact hw1 c hc
    · exact hw2 c hc
  · intro h
    have h1 : lstrip s = [] := List.dropWhile_eq_nil_iff.mpr h
    unfold pyStrip
    rw [h1]
    rfl

theorem fillFallback_pos (limit : ℕ) (fb : List String) (hfb : fb ≠ [])
    (acc : List Suggestion) : 1 ≤ (fillFallback limit fb acc).length := by
  cases fb with
  | nil => exact absurd rfl hfb
  | cons r rs =>
    unfold fillFallback
    dsimp only
    by_cases hstop : limit ≤ (acc ++ [(⟨r, "Supportive"⟩ : Suggestion)]).length
    · rw [if_pos hstop]
      simp
    · rw [if_neg hstop]
      calc 1 ≤ (acc ++ [(⟨r, "Supportive"⟩ : Suggestion)]).length := by simp
        _ ≤ _ := fillFallback_mono limit rs _

theorem normalized_empty_iff (message : Str) :
    (lowerStr (pyStrip message)).isEmpty = true ↔ ∀ c ∈ message, isPySpace c = true := by
  rw [List.isEmpty_iff]
  unfold lowerStr
  rw [List.map_eq_nil_iff]
  exact pyStrip_eq_nil_iff message

/-- C9.  For every message and limit at least 1, `generate_suggested_replies`
returns at most `limit` suggestions; it returns the empty list exactly when
the message is empty or whitespace-only, and otherwise returns at least one
suggestion (rule responses first, topped up with fallbacks). -/
theorem c9_generate_suggested_replies (message : Str) (limit : ℕ) (hl : 1 ≤ limit) :
    (generate_suggested_replies message limit).length ≤ limit ∧
      (generate_suggested_replies message limit = [] ↔ ∀ c ∈ message, isPySpace c = true) ∧
      (¬(∀ c ∈ message, isPySpace c = true) →
        1 ≤ (generate_suggested_replies message limit).length) := by
  unfold generate_suggested_replies
  dsimp only
  by_cases hn : (lowerStr (pyStrip message)).isEmpty = true
  · rw [if_pos hn]
    refine ⟨by simp, ?_, ?_⟩
    · simp only [true_iff]
      exact (normalized_empty_iff message).mp hn
    · intro hc
      exact absurd ((normalized_empty_iff message).mp hn) hc
  · rw [if_neg hn]
    have h0 : ([] : List Suggestion).length < limit := by
      simp only [List.length_nil]
      omega
    obtain ⟨ha, hb, hc⟩ := ruleLoop_spec limit (lowerStr (pyStrip message))
      suggestionRules [] h0
    have hnotall : ¬∀ c ∈ message, isPySpace c = true :=
      fun hall => hn ((normalized_empty_iff message).mpr hall)
    by_cases hflag : (ruleLoop limit (lowerStr (pyStrip message)) suggestionRules []).2 = true
    · rw [if_pos hflag]
      have hlen := hb hflag
      refine ⟨le_of_eq hlen, ?_, fun _ => by omega⟩
      constructor
      · intro he
        rw [he] at hlen
        simp at hlen
        omega
      · intro hall
        exact absurd hall hnotall
    · rw [if_neg hflag]
      have hlt := hc (by simpa using hflag)
      rw [if_pos hlt]
      have hle := fillFallback_le limit fallbackResponses _ hlt
      have hpos := fillFallback_pos limit fallbackResponses (by simp [fallbackResponses])
        (ruleLoop limit (lowerStr (pyStrip message)) suggestionRules []).1
      refine ⟨hle, ?_, fun _ => hpos⟩
      constructor
      · intro he
        rw [he] at hpos
        simp at hpos
      · intro hall
        exact absurd hall hnotall

/-- Witness for C9 at a concrete message and limit 3. -/
theorem c9_generate_suggested_replies_witness :
    (generate_suggested_replies (strChars "hello") 3).length ≤ 3 ∧
      (generate_suggested_replies (strChars "hello") 3 = [] ↔
        ∀ c ∈ strChars "hello", isPySpace c = true) ∧
      (¬(∀ c ∈ strChars "hello", isPySpace c = true) →
        1 ≤ (generate_suggested_replies (strChars "hello") 3).length) :=
  c9_generate_suggested_replies (strChars "hello") 3 (by decide)

/-! ## Queue state -/

/-- C1.  For every report shown on the counselor dashboard (assigned to the
viewing counselor or unassigned), the derived queue state is one of the four
labels new, assigned_to_me, waiting_on_student, closed, and is determined by
the first matching rule in this order: resolved is closed (even if
unassigned); no assigned counselor is new; latest chat message sent by the
viewing counselor is waiting_on_student; otherwise assigned_to_me. -/
theorem c1_queue_state_rules (db : DB) (viewer : ℕ) (r : ReportRec)
    (_hr : r ∈ dashboardReports db viewer) :
    queue_state r.status r.assigned_to (latestMessageSender db r.id) viewer ∈ queueLabels ∧
      queue_state r.status r.assigned_to (latestMessageSender db r.id) viewer =
        claimQueueState r.status r.assigned_to (latestMessageSender db r.id) viewer := by
  unfold queue_state claimQueueState
  split_ifs <;> simp [queueLabels]

/-- Witness for C1: a report assigned to viewer 5 whose latest message was
sent by that viewer evaluates to waiting_on_student under both rule sets. -/
theorem c1_queue_state_rules_witness :
    queue_state "pending" (some 5) (some 5) 5 ∈ queueLabels ∧
      queue_state "pending" (some 5) (some 5) 5 =
        claimQueueState "pending" (some 5) (some 5) 5 :=
  c1_queue_state_rules
    { users := [], profiles := [],
      reports :=
        [{ id := 10, reporter := none, incident_type := .bullying, description := "d",
           incident_date := 0, location := "", is_anonymous := true, created_at := 0,
           updated_at := 0, reporter_name := "", reporter_email := "", reporter_phone := "",
           tracking_code := "t", status := "pending", assigned_to := some 5,
           assigned_at := none, resolved_at := none, counselor_notes := "",
           awaiting_response := true }],
      messages :=
        [{ id := 0, report := 10, sender := 5, recipient := 7,
           cipher_for_sender := { keyId := 0, payload := "" },
           cipher_for_recipient := { keyId := 0, payload := "" }, parent := none,
           timestamp := 3, is_read := false, attachment := none, emotion := "neutral",
           emotion_score := 0, emotion_confidence := 0, risk_level := "normal",
           emotion_explanation := "" }],
      keys := [], nextKeyId := 0, nextMsgId := 0, now := 0 } 5
    { id := 10, reporter := none, incident_type := .bullying, description := "d",
       incident_date := 0, location := "", is_anonymous := true, created_at := 0,
       updated_at := 0, reporter_name := "", reporter_email := "", reporter_phone := "",
       tracking_code := "t", status := "pending", assigned_to := some 5,
       assigned_at := none, resolved_at := none, counselor_notes := "",
       awaiting_response := true } (by decide)

/-! ## Encrypted chat round-trip -/

theorem getOrCreate_found (db : DB) (uid : ℕ) :
    findKey (get_or_create_key db uid).2 uid = some (get_or_create_key db uid).1 := by
  unfold get_or_create_key
  cases h : findKey db uid with
  | some k => simpa using h
  | none =>
    dsimp only
    unfold findKey at h ⊢
    dsimp only
    rw [List.find?_append, h]
    simp

theorem getOrCreate_preserve {db : DB} {u : ℕ} {k : UserKeyRec}
    (hk : findKey db u = some k) (uid : ℕ) :
    findKey (get_or_create_key db uid).2 u = some k := by
  unfold get_or_create_key
  cases h : findKey db uid with
  | some k2 => simpa using hk
  | none =>
    dsimp only
    unfold findKey at hk ⊢
    dsimp only
    rw [List.find?_append, hk]
    simp

/-- C3.  Every chat message created via `ChatMessage.create` stores two
ciphertexts, one under the sender's public key and one under the
recipient's, no plaintext body column, and decryption round-trips:
`get_body_for` returns the original plaintext to both parties. -/
theorem c3_chat_message_roundtrip (db : DB) (report sender recipient : ℕ)
    (message : String) (parent : Option ℕ) (attachment : Option String)
    (insight : Option EmotionInsight) :
    ∃ ks kr,
      findKey (chatMessage_create db report sender recipient message parent attachment
          insight).2 sender = some ks ∧
        findKey (chatMessage_create db report sender recipient message parent attachment
            insight).2 recipient = some kr ∧
        (chatMessage_create db report sender recipient message parent attachment
            insight).1.cipher_for_sender = { keyId := ks.pub, payload := message } ∧
        (chatMessage_create db report sender recipient message parent attachment
            insight).1.cipher_for_recipient = { keyId := kr.pub, payload := message } ∧
        (get_body_for
            (chatMessage_create db report sender recipient message parent attachment
              insight).2
            (chatMessage_create db report sender recipient message parent attachment
              insight).1 sender).1 = some message ∧
        (get_body_for
            (chatMessage_create db report sender recipient message parent attachment
              insight).2
            (chatMessage_create db report sender recipient message parent attachment
              insight).1 recipient).1 = some message := by
  set ks := (get_or_create_key db sender).1 with hks
  set db1 := (get_or_create_key db sender).2 with hdb1
  set kr := (get_or_create_key db1 recipient).1 with hkr
  set db2 := (get_or_create_key db1 recipient).2 with hdb2
  have hfind1 : findKey db1 sender = some ks := by
    rw [hdb1, hks]
    exact getOrCreate_found db sender
  have hfs2 : findKey db2 sender = some ks := by
    rw [hdb2]
    exact getOrCreate_preserve hfind1 recipient
  have hfr2 : findKey db2 recipient = some kr := by
    rw [hdb2, hkr]
    exact getOrCreate_found db1 recipient
  have hkeys : (chatMessage_create db report sender recipient message parent attachment
      insight).2.keys = db2.keys := rfl
  have hfs : findKey (chatMessage_create db report sender recipient message parent
      attachment insight).2 sender = some ks := by
    unfold findKey at hfs2 ⊢
    rw [hkeys]
    exact hfs2
  have hfr : findKey (chatMessage_create db report sender recipient message parent
      attachment insight).2 recipient = some kr := by
    unfold findKey at hfr2 ⊢
    rw [hkeys]
    exact hfr2
  have hcs : (chatMessage_create db report sender recipient message parent attachment
      insight).1.cipher_for_sender = { keyId := ks.pub, payload := message } := rfl
  have hcr : (chatMessage_create db report sender recipient message parent attachment
      insight).1.cipher_for_recipient = { keyId := kr.pub, payload := message } := rfl
  have hsend : (chatMessage_create db report sender recipient message parent attachment
      insight).1.sender = sender := rfl
  refine ⟨ks, kr, hfs, hfr, hcs, hcr, ?_, ?_⟩
  · unfold get_body_for
    rw [hsend, if_pos rfl, hcs]
    unfold decrypt_for get_or_create_key
    rw [hfs]
    simp
  · unfold get_body_for
    rw [hsend]
    by_cases hsr : recipient = sender
    · rw [if_pos hsr, hcs]
      have hkrks : kr = ks := by
        rw [hkr, hsr]
        unfold get_or_create_key
        rw [hfind1]
      unfold decrypt_for get_or_create_key
      rw [hfr]
      dsimp only
      rw [hkrks]
      simp
    · rw [if_neg hsr, hcr]
      unfold decrypt_for get_or_create_key
      rw [hfr]
      simp

/-! ## Report status lifecycle -/

theorem collect_staff_profiles_frame (db : DB) :
    (collect_staff_profiles db).2.reports = db.reports ∧
      (collect_staff_profiles db).2.users = db.users ∧
      (collect_staff_profiles db).2.messages = db.messages ∧
      (collect_staff_profiles db).2.keys = db.keys ∧
      (collect_staff_profiles db).2.now = db.now ∧
      ∃ created, (collect_staff_profiles db).2.profiles = db.profiles ++ created := by
  unfold collect_staff_profiles
  dsimp only
  split_ifs
  · exact ⟨rfl, rfl, rfl, rfl, rfl, [], by simp⟩
  · exact ⟨rfl, rfl, rfl, rfl, rfl, _, rfl⟩

theorem build_candidates_db (db : DB) (r : ReportRec) :
    (build_candidates db r).2 = (collect_staff_profiles db).2 := by
  unfold build_candidates
  dsimp only
  split_ifs <;> rfl

theorem chooseCandidate_db (db : DB) (r : ReportRec) :
    (chooseCandidate db r).2 = (build_candidates db r).2 := rfl

/-- Counterexample for C6: the admin case-assignment endpoint stores the
client-supplied status string without validating it, so a status outside
{pending, under_review, resolved} reaches the database. -/
theorem c6_status_outside_set_counterexample :
    ((admin_case_assignment
          { users := [], profiles := [],
            reports :=
              [{ id := 10, reporter := none, incident_type := .bullying,
                 description := "d", incident_date := 0, location := "",
                 is_anonymous := true, created_at := 0, updated_at := 0,
                 reporter_name := "", reporter_email := "", reporter_phone := "",
                 tracking_code := "t", status := "pending", assigned_to := none,
                 assigned_at := none, resolved_at := none, counselor_notes := "",
                 awaiting_response := true }],
            messages := [], keys := [], nextKeyId := 0, nextMsgId := 0, now := 0 }
          10 none (some "bogus") none).reports.map ReportRec.status) = ["bogus"] ∧
      "bogus" ∉ reportStatusValues := by decide

/-- C6 (amended).  A newly created report has status pending and the only
status auto-assignment ever writes is under_review; the three-value
invariant holds for creation and auto-assignment (the admin case-assignment
view, which stores an arbitrary nonempty client-supplied status string, is
the exception the counterexample exhibits). -/
theorem c6_status_lifecycle_amended :
    (∀ (db : DB) (rid : ℕ) (itype : IncidentType) (description : String)
        (incidentDate : ℕ) (location rname remail rphone trackingCode : String),
        (createAnonymousReport db rid itype description incidentDate location rname
            remail rphone trackingCode).1.status = "pending") ∧
      ∀ (db : DB) (rid : ℕ), ∀ r2 ∈ (assign_counselor db rid).reports,
        r2.status = "under_review" ∨ ∃ r ∈ db.reports, r2.id = r.id ∧ r2.status = r.status := by
  constructor
  · intro db rid itype description incidentDate location rname remail rphone trackingCode
    rfl
  · intro db rid r2 hmem
    unfold assign_counselor at hmem
    cases hfind : findReport db rid with
    | none =>
      rw [hfind] at hmem
      exact Or.inr ⟨r2, hmem, rfl, rfl⟩
    | some r =>
      rw [hfind] at hmem
      dsimp only at hmem
      by_cases hass : r.assigned_to.isSome
      · rw [if_pos hass] at hmem
        exact Or.inr ⟨r2, hmem, rfl, rfl⟩
      · rw [if_neg hass] at hmem
        have hrep1 : (chooseCandidate db r).2.reports = db.reports := by
          rw [chooseCandidate_db, build_candidates_db]
          exact (collect_staff_profiles_frame db).1
        cases hc : (chooseCandidate db r).1 with
        | none =>
          rw [hc] at hmem
          dsimp only at hmem
          rw [hrep1] at hmem
          exact Or.inr ⟨r2, hmem, rfl, rfl⟩
        | some chosen =>
          rw [hc] at hmem
          dsimp only at hmem
          rw [hrep1] at hmem
          obtain ⟨x, hx, hfx⟩ := List.mem_map.mp hmem
          by_cases hid : x.id = rid
          · rw [if_pos hid] at hfx
            left
            rw [← hfx]
          · rw [if_neg hid] at hfx
            exact Or.inr ⟨x, hx, by rw [← hfx], by rw [← hfx]⟩

/-- Witness for C6 (amended): auto-assignment on a concrete database leaves
every stored status either under_review or unchanged. -/
theorem c6_status_lifecycle_amended_witness :
    ({ id := 10, reporter := none, incident_type := .bullying, description := "d",
       incident_date := 0, location := "", is_anonymous := true, created_at := 0,
       updated_at := 0, reporter_name := "", reporter_email := "", reporter_phone := "",
       tracking_code := "t", status := "under_review", assigned_to := some 1,
       assigned_at := none, resolved_at := none, counselor_notes := "",
       awaiting_response := true } : ReportRec).status = "under_review" ∨
      ∃ r ∈ [({ id := 10, reporter := none, incident_type := .bullying, description := "d",
                incident_date := 0, location := "", is_anonymous := true, created_at := 0,
                updated_at := 0, reporter_name := "", reporter_email := "",
                reporter_phone := "", tracking_code := "t", status := "pending",
                assigned_to := none, assigned_at := none, resolved_at := none,
                counselor_notes := "", awaiting_response := true } : ReportRec)],
        ({ id := 10, reporter := none, incident_type := .bullying, description := "d",
           incident_date := 0, location := "", is_anonymous := true, created_at := 0,
           updated_at := 0, reporter_name := "", reporter_email := "",
           reporter_phone := "", tracking_code := "t", status := "under_review",
           assigned_to := some 1, assigned_at := none, resolved_at := none,
           counselor_notes := "", awaiting_response := true } : ReportRec).id = r.id ∧
          ({ id := 10, reporter := none, incident_type := .bullying, description := "d",
             incident_date := 0, location := "", is_anonymous := true, created_at := 0,
             updated_at := 0, reporter_name := "", reporter_email := "",
             reporter_phone := "", tracking_code := "t", status := "under_review",
             assigned_to := some 1, assigned_at := none, resolved_at := none,
             counselor_notes := "", awaiting_response := true } : ReportRec).status = r.status :=
  c6_status_lifecycle_amended.2
    { users := [{ id := 1, is_staff := true, is_active := true }],
      profiles :=
        [{ user_id := 1, specialization := .disciplinary, max_active_cases := 25,
           auto_assign_enabled := true, last_auto_assigned_at := none }],
      reports := [({ id := 10, reporter := none, incident_type := .bullying, description := "d",
                     incident_date := 0, location := "", is_anonymous := true,
                     created_at := 0, updated_at := 0, reporter_name := "",
                     reporter_email := "", reporter_phone := "", tracking_code := "t",
                     status := "pending", assigned_to := none, assigned_at := none,
                     resolved_at := none, counselor_notes := "", awaiting_response := true } : ReportRec)],
      messages := [], keys := [], nextKeyId := 0, nextMsgId := 0, now := 77 } 10
    ({ id := 10, reporter := none, incident_type := .bullying, description := "d",
       incident_date := 0, location := "", is_anonymous := true, created_at := 0,
       updated_at := 0, reporter_name := "", reporter_email := "", reporter_phone := "",
       tracking_code := "t", status := "under_review", assigned_to := some 1,
       assigned_at := none, resolved_at := none, counselor_notes := "",
       awaiting_response := true } : ReportRec) (by decide)

/-! ## Auto-assignment: the chosen candidate is optimal -/

theorem lexKeyLe_refl (x : ℕ × ℕ × ℕ × ℕ) : lexKeyLe x x := by
  unfold lexKeyLe
  omega

theorem lexKeyLe_antisymm {x y : ℕ × ℕ × ℕ × ℕ} (h1 : lexKeyLe x y) (h2 : lexKeyLe y x) :
    x = y := by
  obtain ⟨a1, a2, a3, a4⟩ := x
  obtain ⟨b1, b2, b3, b4⟩ := y
  unfold lexKeyLe at h1 h2
  dsimp only at h1 h2
  simp only [Prod.mk.injEq]
  omega

theorem sortCandidates_head_min {cs : List Candidate} {chosen : Candidate}
    (h : (sortCandidates cs).head? = some chosen) :
    chosen ∈ cs ∧ ∀ c ∈ cs, candRel chosen c := by
  unfold sortCandidates at h
  have hperm := List.perm_insertionSort candRel cs
  have hsorted := List.sorted_insertionSort candRel cs
  cases hs : List.insertionSort candRel cs with
  | nil =>
    rw [hs] at h
    simp at h
  | cons a rest =>
    rw [hs] at h
    simp only [List.head?_cons, Option.some.injEq] at h
    rw [hs] at hperm hsorted
    rw [← h]
    constructor
    · exact hperm.mem_iff.mp (by simp)
    · intro c hc
      have hc2 : c ∈ a :: rest := hperm.mem_iff.mpr hc
      rcases List.mem_cons.mp hc2 with rfl | hcr
      · exact lexKeyLe_refl _
      · exact (List.pairwise_cons.mp hsorted).1 c hcr

theorem activeWorkload_collect (db : DB) (uid : ℕ) :
    activeWorkload (collect_staff_profiles db).2 uid = activeWorkload db uid := by
  unfold activeWorkload
  rw [(collect_staff_profiles_frame db).1]

theorem build_candidates_fst (db : DB) (r : ReportRec) :
    (build_candidates db r).1 =
      ((collect_staff_profiles db).1.filter fun p =>
          p.auto_assign_enabled &&
            match findUser (collect_staff_profiles db).2 p.user_id with
            | some u => u.is_staff && u.is_active
            | none => false).filterMap fun p =>
        if p.max_active_cases ≤ activeWorkload (collect_staff_profiles db).2 p.user_id then
          none
        else
          some
            { profile := p,
              active_cases := activeWorkload (collect_staff_profiles db).2 p.user_id,
              specialization_rank :=
                if p.specialization = target_specialization r.incident_type then 0
                else if p.specialization = CounselorSpecialization.general then 1
                else 2,
              last_auto_assigned_at := p.last_auto_assigned_at } := by
  unfold build_candidates
  dsimp only
  split_ifs with hp
  · rw [List.isEmpty_iff] at hp
    rw [hp]
    simp
  · rfl

theorem build_candidates_mem {db : DB} {r : ReportRec} {c : Candidate}
    (hc : c ∈ (build_candidates db r).1) :
    c.active_cases = activeWorkload db c.profile.user_id ∧
      c.active_cases < c.profile.max_active_cases ∧
      c.specialization_rank =
        claimSpecializationRank c.profile.specialization
          (target_specialization r.incident_type) ∧
      c.last_auto_assigned_at = c.profile.last_auto_assigned_at := by
  rw [build_candidates_fst] at hc
  obtain ⟨p, hpmem, hpf⟩ := List.mem_filterMap.mp hc
  by_cases hcap : p.max_active_cases ≤ activeWorkload (collect_staff_profiles db).2 p.user_id
  · rw [if_pos hcap] at hpf
    simp at hpf
  · rw [if_neg hcap] at hpf
    obtain rfl := Option.some.inj hpf
    refine ⟨?_, ?_, ?_, rfl⟩
    · exact activeWorkload_collect db p.user_id
    · dsimp only
      rw [activeWorkload_collect db p.user_id] at hcap ⊢
      omega
    · unfold claimSpecializationRank
      rfl

theorem candKey_eq_claimKey {db : DB} {r : ReportRec} {c : Candidate}
    (hc : c ∈ (build_candidates db r).1) : candKey c = claimKey db r c.profile := by
  obtain ⟨h1, -, h3, h4⟩ := build_candidates_mem hc
  unfold candKey claimKey
  rw [h1, h3, h4]

theorem staffIds_nodup {db : DB} (hwf : WF db) : (staffIds db).Nodup := by
  unfold staffIds
  exact List.Nodup.sublist ((List.filter_sublist _).map _) hwf.1

theorem collect_userIds_nodup {db : DB} (hwf : WF db) :
    ((collect_staff_profiles db).1.map ProfileRec.user_id).Nodup := by
  unfold collect_staff_profiles
  dsimp only
  split_ifs with hs
  · simp
  · rw [List.map_append]
    have hcreated : (((staffIds db).filter fun uid =>
        db.profiles.all fun p => p.user_id ≠ uid).map defaultProfile).map
          ProfileRec.user_id =
        (staffIds db).filter fun uid => db.profiles.all fun p => p.user_id ≠ uid := by
      rw [List.map_map]
      have hco : (ProfileRec.user_id ∘ defaultProfile) = id := funext fun uid => rfl
      rw [hco, List.map_id]
    rw [List.nodup_append, hcreated]
    refine ⟨?_, ?_, ?_⟩
    · exact List.Nodup.sublist ((List.filter_sublist _).map _) hwf.2.1
    · exact List.Nodup.sublist (List.filter_sublist _) (staffIds_nodup hwf)
    · intro a ha hb
      obtain ⟨p, hp, hpa⟩ := List.mem_map.mp ha
      have hpdb : p ∈ db.profiles := (List.mem_filter.mp hp).1
      have hall := (List.mem_filter.mp hb).2
      rw [List.all_eq_true] at hall
      have := hall p hpdb
      simp only [decide_eq_true_eq] at this
      exact this hpa

theorem filterMap_cand_sublist (f : ProfileRec → Option Candidate)
    (hf : ∀ p c, f p = some c → c.profile = p) :
    ∀ l : List ProfileRec,
      ((l.filterMap f).map fun c => c.profile.user_id).Sublist
        (l.map ProfileRec.user_id) := by
  intro l
  induction l with
  | nil => simp
  | cons p ps ih =>
    rw [List.filterMap_cons]
    cases hfp : f p with
    | none =>
      rw [List.map_cons]
      exact ih.cons _
    | some c =>
      rw [List.map_cons, List.map_cons]
      have hcp : c.profile = p := hf p c hfp
      rw [hcp]
      exact ih.cons₂ _

theorem build_userIds_nodup {db : DB} (r : ReportRec) (hwf : WF db) :
    ((build_candidates db r).1.map fun c => c.profile.user_id).Nodup := by
  rw [build_candidates_fst]
  have hf : ∀ (p : ProfileRec) (c : Candidate),
      (if p.max_active_cases ≤ activeWorkload (collect_staff_profiles db).2 p.user_id then
          none
        else
          some
            { profile := p,
              active_cases := activeWorkload (collect_staff_profiles db).2 p.user_id,
              specialization_rank :=
                if p.specialization = target_specialization r.incident_type then 0
                else if p.specialization = CounselorSpecialization.general then 1
                else 2,
              last_auto_assigned_at := p.last_auto_assigned_at }) = some c →
        c.profile = p := by
    intro p c h
    by_cases hcap : p.max_active_cases ≤ activeWorkload (collect_staff_profiles db).2 p.user_id
    · rw [if_pos hcap] at h
      simp at h
    · rw [if_neg hcap] at h
      obtain rfl := Option.some.inj h
      rfl
  have h1 := filterMap_cand_sublist _ hf
    ((collect_staff_profiles db).1.filter fun p =>
      p.auto_assign_enabled &&
        match findUser (collect_staff_profiles db).2 p.user_id with
        | some u => u.is_staff && u.is_active
        | none => false)
  have h2 : (((collect_staff_profiles db).1.filter fun p =>
      p.auto_assign_enabled &&
        match findUser (collect_staff_profiles db).2 p.user_id with
        | some u => u.is_staff && u.is_active
        | none => false).map ProfileRec.user_id).Sublist
      ((collect_staff_profiles db).1.map ProfileRec.user_id) :=
    (List.filter_sublist _).map _
  exact List.Nodup.sublist (h1.trans h2) (collect_userIds_nodup hwf)

theorem assign_counselor_success (db : DB) (rid : ℕ) (r : ReportRec) (chosen : Candidate)
    (hfind : findReport db rid = some r) (hun : r.assigned_to = none)
    (hc : (chooseCandidate db r).1 = some chosen) :
    assign_counselor db rid =
      { (chooseCandidate db r).2 with
        reports := (chooseCandidate db r).2.reports.map fun x =>
          if x.id = rid then
            { x with assigned_to := some chosen.profile.user_id, status := "under_review" }
          else x
        profiles := (chooseCandidate db r).2.profiles.map fun p =>
          if p.user_id = chosen.profile.user_id then
            { p with last_auto_assigned_at := some (chooseCandidate db r).2.now }
          else p } := by
  unfold assign_counselor
  rw [hfind]
  dsimp only
  rw [if_neg (by simp [hun]), hc]

/-- C2.  Whenever `assign_counselor` assigns a counselor to an unassigned
report, the chosen counselor is the eligible candidate minimal under the
lexicographic order (specialization rank, active cases, last auto-assignment
instant with missing ordered earliest, user id), with specialization rank 0
on an exact match of the report's target specialization (bullying and
ragging map to disciplinary, harassment to emotional, anything else to
general), 1 for generalists and 2 otherwise. -/
theorem c2_assign_counselor_optimal (db : DB) (rid : ℕ) (r : ReportRec)
    (chosen : Candidate) (hwf : WF db) (hfind : findReport db rid = some r)
    (hun : r.assigned_to = none) (hc : (chooseCandidate db r).1 = some chosen) :
    (assign_counselor db rid).reports =
        db.reports.map (fun x =>
          if x.id = rid then
            { x with assigned_to := some chosen.profile.user_id, status := "under_review" }
          else x) ∧
      chosen ∈ (build_candidates db r).1 ∧
      (∀ c ∈ (build_candidates db r).1,
        lexKeyLe (claimKey db r chosen.profile) (claimKey db r c.profile)) ∧
      ∀ c ∈ (build_candidates db r).1,
        lexKeyLe (claimKey db r c.profile) (claimKey db r chosen.profile) → c = chosen := by
  have hsucc := assign_counselor_success db rid r chosen hfind hun hc
  have hhead : (sortCandidates (build_candidates db r).1).head? = some chosen := hc
  obtain ⟨hmem, hmin⟩ := sortCandidates_head_min hhead
  refine ⟨?_, hmem, ?_, ?_⟩
  · rw [hsucc]
    show (chooseCandidate db r).2.reports.map _ = _
    rw [chooseCandidate_db, build_candidates_db, (collect_staff_profiles_frame db).1]
  · intro c hcand
    have hrel := hmin c hcand
    unfold candRel at hrel
    rwa [candKey_eq_claimKey hmem, candKey_eq_claimKey hcand] at hrel
  · intro c hcand hle
    have hrel := hmin c hcand
    unfold candRel at hrel
    rw [candKey_eq_claimKey hmem, candKey_eq_claimKey hcand] at hrel
    have heq := lexKeyLe_antisymm hle hrel
    have hid : c.profile.user_id = chosen.profile.user_id := by
      have hcomp := congrArg (fun t => t.2.2.2) heq
      simpa [claimKey] using hcomp
    exact List.inj_on_of_nodup_map (build_userIds_nodup r hwf) hcand hmem hid

/-- C5.  Auto-assignment never assigns a report to a counselor at or over
capacity: the counselor chosen for an unassigned report always has strictly
fewer assigned unresolved reports than their profile's max_active_cases. -/
theorem c5_capacity_respected (db : DB) (rid : ℕ) (r : ReportRec) (chosen : Candidate)
    (hfind : findReport db rid = some r) (hun : r.assigned_to = none)
    (hc : (chooseCandidate db r).1 = some chosen) :
    (assign_counselor db rid).reports =
        db.reports.map (fun x =>
          if x.id = rid then
            { x with assigned_to := some chosen.profile.user_id, status := "under_review" }
          else x) ∧
      activeWorkload db chosen.profile.user_id < chosen.profile.max_active_cases := by
  have hsucc := assign_counselor_success db rid r chosen hfind hun hc
  have hhead : (sortCandidates (build_candidates db r).1).head? = some chosen := hc
  obtain ⟨hmem, -⟩ := sortCandidates_head_min hhead
  obtain ⟨h1, h2, -, -⟩ := build_candidates_mem hmem
  constructor
  · rw [hsucc]
    show (chooseCandidate db r).2.reports.map _ = _
    rw [chooseCandidate_db, build_candidates_db, (collect_staff_profiles_frame db).1]
  · omega

/-- C8.  `assign_counselor` leaves the report and all counselor profiles
untouched when the report is already assigned; when no eligible candidate
exists it changes no report and no existing profile (it may only append
freshly created default profiles); and on success it writes exactly
`assigned_to` and `status` of the one report and the chosen counselor's
`last_auto_assigned_at`, leaving every other field and record unchanged. -/
theorem c8_assign_counselor_frame (db : DB) (rid : ℕ) (r : ReportRec) (u : ℕ)
    (chosen : Candidate) :
    (findReport db rid = some r → r.assigned_to = some u →
        assign_counselor db rid = db) ∧
      (findReport db rid = some r → r.assigned_to = none →
        (chooseCandidate db r).1 = none →
        (assign_counselor db rid).reports = db.reports ∧
          (assign_counselor db rid).users = db.users ∧
          (assign_counselor db rid).messages = db.messages ∧
          (assign_counselor db rid).keys = db.keys ∧
          ∃ created, (assign_counselor db rid).profiles = db.profiles ++ created) ∧
      (findReport db rid = some r → r.assigned_to = none →
        (chooseCandidate db r).1 = some chosen →
        (assign_counselor db rid).users = db.users ∧
          (assign_counselor db rid).messages = db.messages ∧
          (assign_counselor db rid).keys = db.keys ∧
          (assign_counselor db rid).reports =
            db.reports.map (fun x =>
              if x.id = rid then
                { x with assigned_to := some chosen.profile.user_id
                         status := "under_review" }
              else x) ∧
          ∃ created,
            (assign_counselor db rid).profiles =
              (db.profiles ++ created).map fun p =>
                if p.user_id = chosen.profile.user_id then
                  { p with last_auto_assigned_at := some db.now }
                else p) := by
  obtain ⟨hrep, husers, hmsgs, hkeys, hnow, created, hprof⟩ := collect_staff_profiles_frame db
  have hdbeq : (chooseCandidate db r).2 = (collect_staff_profiles db).2 := by
    rw [chooseCandidate_db, build_candidates_db]
  refine ⟨?_, ?_, ?_⟩
  · intro hfind hass
    unfold assign_counselor
    rw [hfind]
    dsimp only
    rw [if_pos (by simp [hass])]
  · intro hfind hun hc
    have hres : assign_counselor db rid = (chooseCandidate db r).2 := by
      unfold assign_counselor
      rw [hfind]
      dsimp only
      rw [if_neg (by simp [hun]), hc]
    rw [hres, hdbeq]
    exact ⟨hrep, husers, hmsgs, hkeys, created, hprof⟩
  · intro hfind hun hc
    have hsucc := assign_counselor_success db rid r chosen hfind hun hc
    rw [hsucc]
    refine ⟨?_, ?_, ?_, ?_, created, ?_⟩
    · show (chooseCandidate db r).2.users = db.users
      rw [hdbeq, husers]
    · show (chooseCandidate db r).2.messages = db.messages
      rw [hdbeq, hmsgs]
    · show (chooseCandidate db r).2.keys = db.keys
      rw [hdbeq, hkeys]
    · show (chooseCandidate db r).2.reports.map _ = _
      rw [hdbeq, hrep]
    · show (chooseCandidate db r).2.profiles.map _ = _
      rw [hdbeq, hprof, hnow]

/-- Witness for C2 on a concrete database: the single disciplinary counselor
is chosen for a bullying report and is minimal under the claim's key. -/
theorem c2_assign_counselor_optimal_witness :
    (assign_counselor { users := [{ id := 1, is_staff := true, is_active := true }], profiles := [{ user_id := 1, specialization := .disciplinary, max_active_cases := 25, auto_assign_enabled := true, last_auto_assigned_at := none }], reports := [{ id := 10, reporter := none, incident_type := .bullying, description := "d", incident_date := 0, location := "", is_anonymous := true, created_at := 0, updated_at := 0, reporter_name := "", reporter_email := "", reporter_phone := "", tracking_code := "t", status := "pending", assigned_to := none, assigned_at := none, resolved_at := none, counselor_notes := "", awaiting_response := true }], messages := [], keys := [], nextKeyId := 0, nextMsgId := 0, now := 77 } 10).reports =
        [({ id := 10, reporter := none, incident_type := .bullying, description := "d", incident_date := 0, location := "", is_anonymous := true, created_at := 0, updated_at := 0, reporter_name := "", reporter_email := "", reporter_phone := "", tracking_code := "t", status := "pending", assigned_to := none, assigned_at := none, resolved_at := none, counselor_notes := "", awaiting_response := true } : ReportRec)].map (fun x =>
          if x.id = 10 then
            { x with assigned_to := some 1, status := "under_review" }
          else x) ∧
      ({ profile := { user_id := 1, specialization := .disciplinary, max_active_cases := 25, auto_assign_enabled := true, last_auto_assigned_at := none }, active_cases := 0, specialization_rank := 0, last_auto_assigned_at := none } : Candidate) ∈ (build_candidates { users := [{ id := 1, is_staff := true, is_active := true }], profiles := [{ user_id := 1, specialization := .disciplinary, max_active_cases := 25, auto_assign_enabled := true, last_auto_assigned_at := none }], reports := [{ id := 10, reporter := none, incident_type := .bullying, description := "d", incident_date := 0, location := "", is_anonymous := true, created_at := 0, updated_at := 0, reporter_name := "", reporter_email := "", reporter_phone := "", tracking_code := "t", status := "pending", assigned_to := none, assigned_at := none, resolved_at := none, counselor_notes := "", awaiting_response := true }], messages := [], keys := [], nextKeyId := 0, nextMsgId := 0, now := 77 } { id := 10, reporter := none, incident_type := .bullying, description := "d", incident_date := 0, location := "", is_anonymous := true, created_at := 0, updated_at := 0, reporter_name := "", reporter_email := "", reporter_phone := "", tracking_code := "t", status := "pending", assigned_to := none, assigned_at := none, resolved_at := none, counselor_notes := "", awaiting_response := true }).1 ∧
      (∀ c ∈ (build_candidates { users := [{ id := 1, is_staff := true, is_active := true }], profiles := [{ user_id := 1, specialization := .disciplinary, max_active_cases := 25, auto_assign_enabled := true, last_auto_assigned_at := none }], reports := [{ id := 10, reporter := none, incident_type := .bullying, description := "d", incident_date := 0, location := "", is_anonymous := true, created_at := 0, updated_at := 0, reporter_name := "", reporter_email := "", reporter_phone := "", tracking_code := "t", status := "pending", assigned_to := none, assigned_at := none, resolved_at := none, counselor_notes := "", awaiting_response := true }], messages := [], keys := [], nextKeyId := 0, nextMsgId := 0, now := 77 } { id := 10, reporter := none, incident_type := .bullying, description := "d", incident_date := 0, location := "", is_anonymous := true, created_at := 0, updated_at := 0, reporter_name := "", reporter_email := "", reporter_phone := "", tracking_code := "t", status := "pending", assigned_to := none, assigned_at := none, resolved_at := none, counselor_notes := "", awaiting_response := true }).1,
        lexKeyLe (claimKey { users := [{ id := 1, is_staff := true, is_active := true }], profiles := [{ user_id := 1, specialization := .disciplinary, max_active_cases := 25, auto_assign_enabled := true, last_auto_assigned_at := none }], reports := [{ id := 10, reporter := none, incident_type := .bullying, description := "d", incident_date := 0, location := "", is_anonymous := true, created_at := 0, updated_at := 0, reporter_name := "", reporter_email := "", reporter_phone := "", tracking_code := "t", status := "pending", assigned_to := none, assigned_at := none, resolved_at := none, counselor_notes := "", awaiting_response := true }], messages := [], keys := [], nextKeyId := 0, nextMsgId := 0, now := 77 } { id := 10, reporter := none, incident_type := .bullying, description := "d", incident_date := 0, location := "", is_anonymous := true, created_at := 0, updated_at := 0, reporter_name := "", reporter_email := "", reporter_phone := "", tracking_code := "t", status := "pending", assigned_to := none, assigned_at := none, resolved_at := none, counselor_notes := "", awaiting_response := true } { user_id := 1, specialization := .disciplinary, max_active_cases := 25, auto_assign_enabled := true, last_auto_assigned_at := none }) (claimKey { users := [{ id := 1, is_staff := true, is_active := true }], profiles := [{ user_id := 1, specialization := .disciplinary, max_active_cases := 25, auto_assign_enabled := true, last_auto_assigned_at := none }], reports := [{ id := 10, reporter := none, incident_type := .bullying, description := "d", incident_date := 0, location := "", is_anonymous := true, created_at := 0, updated_at := 0, reporter_name := "", reporter_email := "", reporter_phone := "", tracking_code := "t", status := "pending", assigned_to := none, assigned_at := none, resolved_at := none, counselor_notes := "", awaiting_response := true }], messages := [], keys := [], nextKeyId := 0, nextMsgId := 0, now := 77 } { id := 10, reporter := none, incident_type := .bullying, description := "d", incident_date := 0, location := "", is_anonymous := true, created_at := 0, updated_at := 0, reporter_name := "", reporter_email := "", reporter_phone := "", tracking_code := "t", status := "pending", assigned_to := none, assigned_at := none, resolved_at := none, counselor_notes := "", awaiting_response := true } c.profile)) ∧
      ∀ c ∈ (build_candidates { users := [{ id := 1, is_staff := true, is_active := true }], profiles := [{ user_id := 1, specialization := .disciplinary, max_active_cases := 25, auto_assign_enabled := true, last_auto_assigned_at := none }], reports := [{ id := 10, reporter := none, incident_type := .bullying, description := "d", incident_date := 0, location := "", is_anonymous := true, created_at := 0, updated_at := 0, reporter_name := "", reporter_email := "", reporter_phone := "", tracking_code := "t", status := "pending", assigned_to := none, assigned_at := none, resolved_at := none, counselor_notes := "", awaiting_response := true }], messages := [], keys := [], nextKeyId := 0, nextMsgId := 0, now := 77 } { id := 10, reporter := none, incident_type := .bullying, description := "d", incident_date := 0, location := "", is_anonymous := true, created_at := 0, updated_at := 0, reporter_name := "", reporter_email := "", reporter_phone := "", tracking_code := "t", status := "pending", assigned_to := none, assigned_at := none, resolved_at := none, counselor_notes := "", awaiting_response := true }).1,
        lexKeyLe (claimKey { users := [{ id := 1, is_staff := true, is_active := true }], profiles := [{ user_id := 1, specialization := .disciplinary, max_active_cases := 25, auto_assign_enabled := true, last_auto_assigned_at := none }], reports := [{ id := 10, reporter := none, incident_type := .bullying, description := "d", incident_date := 0, location := "", is_anonymous := true, created_at := 0, updated_at := 0, reporter_name := "", reporter_email := "", reporter_phone := "", tracking_code := "t", status := "pending", assigned_to := none, assigned_at := none, resolved_at := none, counselor_notes := "", awaiting_response := true }], messages := [], keys := [], nextKeyId := 0, nextMsgId := 0, now := 77 } { id := 10, reporter := none, incident_type := .bullying, description := "d", incident_date := 0, location := "", is_anonymous := true, created_at := 0, updated_at := 0, reporter_name := "", reporter_email := "", reporter_phone := "", tracking_code := "t", status := "pending", assigned_to := none, assigned_at := none, resolved_at := none, counselor_notes := "", awaiting_response := true } c.profile) (claimKey { users := [{ id := 1, is_staff := true, is_active := true }], profiles := [{ user_id := 1, specialization := .disciplinary, max_active_cases := 25, auto_assign_enabled := true, last_auto_assigned_at := none }], reports := [{ id := 10, reporter := none, incident_type := .bullying, description := "d", incident_date := 0, location := "", is_anonymous := true, created_at := 0, updated_at := 0, reporter_name := "", reporter_email := "", reporter_phone := "", tracking_code := "t", status := "pending", assigned_to := none, assigned_at := none, resolved_at := none, counselor_notes := "", awaiting_response := true }], messages := [], keys := [], nextKeyId := 0, nextMsgId := 0, now := 77 } { id := 10, reporter := none, incident_type := .bullying, description := "d", incident_date := 0, location := "", is_anonymous := true, created_at := 0, updated_at := 0, reporter_name := "", reporter_email := "", reporter_phone := "", tracking_code := "t", status := "pending", assigned_to := none, assigned_at := none, resolved_at := none, counselor_notes := "", awaiting_response := true } { user_id := 1, specialization := .disciplinary, max_active_cases := 25, auto_assign_enabled := true, last_auto_assigned_at := none }) →
          c = { profile := { user_id := 1, specialization := .disciplinary, max_active_cases := 25, auto_assign_enabled := true, last_auto_assigned_at := none }, active_cases := 0, specialization_rank := 0, last_auto_assigned_at := none } :=
  c2_assign_counselor_optimal { users := [{ id := 1, is_staff := true, is_active := true }], profiles := [{ user_id := 1, specialization := .disciplinary, max_active_cases := 25, auto_assign_enabled := true, last_auto_assigned_at := none }], reports := [{ id := 10, reporter := none, incident_type := .bullying, description := "d", incident_date := 0, location := "", is_anonymous := true, created_at := 0, updated_at := 0, reporter_name := "", reporter_email := "", reporter_phone := "", tracking_code := "t", status := "pending", assigned_to := none, assigned_at := none, resolved_at := none, counselor_notes := "", awaiting_response := true }], messages := [], keys := [], nextKeyId := 0, nextMsgId := 0, now := 77 } 10 { id := 10, reporter := none, incident_type := .bullying, description := "d", incident_date := 0, location := "", is_anonymous := true, created_at := 0, updated_at := 0, reporter_name := "", reporter_email := "", reporter_phone := "", tracking_code := "t", status := "pending", assigned_to := none, assigned_at := none, resolved_at := none, counselor_notes := "", awaiting_response := true } { profile := { user_id := 1, specialization := .disciplinary, max_active_cases := 25, auto_assign_enabled := true, last_auto_assigned_at := none }, active_cases := 0, specialization_rank := 0, last_auto_assigned_at := none } (by decide) (by decide) (by decide)
    (by decide)

/-- Witness for C5 on the same concrete database: the chosen counselor is
under capacity. -/
theorem c5_capacity_respected_witness :
    (assign_counselor { users := [{ id := 1, is_staff := true, is_active := true }], profiles := [{ user_id := 1, specialization := .disciplinary, max_active_cases := 25, auto_assign_enabled := true, last_auto_assigned_at := none }], reports := [{ id := 10, reporter := none, incident_type := .bullying, description := "d", incident_date := 0, location := "", is_anonymous := true, created_at := 0, updated_at := 0, reporter_name := "", reporter_email := "", reporter_phone := "", tracking_code := "t", status := "pending", assigned_to := none, assigned_at := none, resolved_at := none, counselor_notes := "", awaiting_response := true }], messages := [], keys := [], nextKeyId := 0, nextMsgId := 0, now := 77 } 10).reports =
        [({ id := 10, reporter := none, incident_type := .bullying, description := "d", incident_date := 0, location := "", is_anonymous := true, created_at := 0, updated_at := 0, reporter_name := "", reporter_email := "", reporter_phone := "", tracking_code := "t", status := "pending", assigned_to := none, assigned_at := none, resolved_at := none, counselor_notes := "", awaiting_response := true } : ReportRec)].map (fun x =>
          if x.id = 10 then
            { x with assigned_to := some 1, status := "under_review" }
          else x) ∧
      activeWorkload { users := [{ id := 1, is_staff := true, is_active := true }], profiles := [{ user_id := 1, specialization := .disciplinary, max_active_cases := 25, auto_assign_enabled := true, last_auto_assigned_at := none }], reports := [{ id := 10, reporter := none, incident_type := .bullying, description := "d", incident_date := 0, location := "", is_anonymous := true, created_at := 0, updated_at := 0, reporter_name := "", reporter_email := "", reporter_phone := "", tracking_code := "t", status := "pending", assigned_to := none, assigned_at := none, resolved_at := none, counselor_notes := "", awaiting_response := true }], messages := [], keys := [], nextKeyId := 0, nextMsgId := 0, now := 77 } 1 < 25 :=
  c5_capacity_respected { users := [{ id := 1, is_staff := true, is_active := true }], profiles := [{ user_id := 1, specialization := .disciplinary, max_active_cases := 25, auto_assign_enabled := true, last_auto_assigned_at := none }], reports := [{ id := 10, reporter := none, incident_type := .bullying, description := "d", incident_date := 0, location := "", is_anonymous := true, created_at := 0, updated_at := 0, reporter_name := "", reporter_email := "", reporter_phone := "", tracking_code := "t", status := "pending", assigned_to := none, assigned_at := none, resolved_at := none, counselor_notes := "", awaiting_response := true }], messages := [], keys := [], nextKeyId := 0, nextMsgId := 0, now := 77 } 10 { id := 10, reporter := none, incident_type := .bullying, description := "d", incident_date := 0, location := "", is_anonymous := true, created_at := 0, updated_at := 0, reporter_name := "", reporter_email := "", reporter_phone := "", tracking_code := "t", status := "pending", assigned_to := none, assigned_at := none, resolved_at := none, counselor_notes := "", awaiting_response := true } { profile := { user_id := 1, specialization := .disciplinary, max_active_cases := 25, auto_assign_enabled := true, last_auto_assigned_at := none }, active_cases := 0, specialization_rank := 0, last_auto_assigned_at := none } (by decide) (by decide) (by decide)

/-- Witness for C8 on the same concrete database: a successful assignment
only rewrites the chosen report's assignment fields and the chosen
counselor's timestamp. -/
theorem c8_assign_counselor_frame_witness :
    (assign_counselor { users := [{ id := 1, is_staff := true, is_active := true }], profiles := [{ user_id := 1, specialization := .disciplinary, max_active_cases := 25, auto_assign_enabled := true, last_auto_assigned_at := none }], reports := [{ id := 10, reporter := none, incident_type := .bullying, description := "d", incident_date := 0, location := "", is_anonymous := true, created_at := 0, updated_at := 0, reporter_name := "", reporter_email := "", reporter_phone := "", tracking_code := "t", status := "pending", assigned_to := none, assigned_at := none, resolved_at := none, counselor_notes := "", awaiting_response := true }], messages := [], keys := [], nextKeyId := 0, nextMsgId := 0, now := 77 } 10).users = [({ id := 1, is_staff := true, is_active := true } : UserRec)] ∧
      (assign_counselor { users := [{ id := 1, is_staff := true, is_active := true }], profiles := [{ user_id := 1, specialization := .disciplinary, max_active_cases := 25, auto_assign_enabled := true, last_auto_assigned_at := none }], reports := [{ id := 10, reporter := none, incident_type := .bullying, description := "d", incident_date := 0, location := "", is_anonymous := true, created_at := 0, updated_at := 0, reporter_name := "", reporter_email := "", reporter_phone := "", tracking_code := "t", status := "pending", assigned_to := none, assigned_at := none, resolved_at := none, counselor_notes := "", awaiting_response := true }], messages := [], keys := [], nextKeyId := 0, nextMsgId := 0, now := 77 } 10).messages = [] ∧
      (assign_counselor { users := [{ id := 1, is_staff := true, is_active := true }], profiles := [{ user_id := 1, specialization := .disciplinary, max_active_cases := 25, auto_assign_enabled := true, last_auto_assigned_at := none }], reports := [{ id := 10, reporter := none, incident_type := .bullying, description := "d", incident_date := 0, location := "", is_anonymous := true, created_at := 0, updated_at := 0, reporter_name := "", reporter_email := "", reporter_phone := "", tracking_code := "t", status := "pending", assigned_to := none, assigned_at := none, resolved_at := none, counselor_notes := "", awaiting_response := true }], messages := [], keys := [], nextKeyId := 0, nextMsgId := 0, now := 77 } 10).keys = [] ∧
      (assign_counselor { users := [{ id := 1, is_staff := true, is_active := true }], profiles := [{ user_id := 1, specialization := .disciplinary, max_active_cases := 25, auto_assign_enabled := true, last_auto_assigned_at := none }], reports := [{ id := 10, reporter := none, incident_type := .bullying, description := "d", incident_date := 0, location := "", is_anonymous := true, created_at := 0, updated_at := 0, reporter_name := "", reporter_email := "", reporter_phone := "", tracking_code := "t", status := "pending", assigned_to := none, assigned_at := none, resolved_at := none, counselor_notes := "", awaiting_response := true }], messages := [], keys := [], nextKeyId := 0, nextMsgId := 0, now := 77 } 10).reports =
        [({ id := 10, reporter := none, incident_type := .bullying, description := "d", incident_date := 0, location := "", is_anonymous := true, created_at := 0, updated_at := 0, reporter_name := "", reporter_email := "", reporter_phone := "", tracking_code := "t", status := "pending", assigned_to := none, assigned_at := none, resolved_at := none, counselor_notes := "", awaiting_response := true } : ReportRec)].map (fun x =>
          if x.id = 10 then
            { x with assigned_to := some 1, status := "under_review" }
          else x) ∧
      ∃ created,
        (assign_counselor { users := [{ id := 1, is_staff := true, is_active := true }], profiles := [{ user_id := 1, specialization := .disciplinary, max_active_cases := 25, auto_assign_enabled := true, last_auto_assigned_at := none }], reports := [{ id := 10, reporter := none, incident_type := .bullying, description := "d", incident_date := 0, location := "", is_anonymous := true, created_at := 0, updated_at := 0, reporter_name := "", reporter_email := "", reporter_phone := "", tracking_code := "t", status := "pending", assigned_to := none, assigned_at := none, resolved_at := none, counselor_notes := "", awaiting_response := true }], messages := [], keys := [], nextKeyId := 0, nextMsgId := 0, now := 77 } 10).profiles =
          ([({ user_id := 1, specialization := .disciplinary, max_active_cases := 25, auto_assign_enabled := true, last_auto_assigned_at := none } : ProfileRec)] ++ created).map fun p =>
            if p.user_id = 1 then { p with last_auto_assigned_at := some 77 } else p :=
  (c8_assign_counselor_frame { users := [{ id := 1, is_staff := true, is_active := true }], profiles := [{ user_id := 1, specialization := .disciplinary, max_active_cases := 25, auto_assign_enabled := true, last_auto_assigned_at := none }], reports := [{ id := 10, reporter := none, incident_type := .bullying, description := "d", incident_date := 0, location := "", is_anonymous := true, created_at := 0, updated_at := 0, reporter_name := "", reporter_email := "", reporter_phone := "", tracking_code := "t", status := "pending", assigned_to := none, assigned_at := none, resolved_at := none, counselor_notes := "", awaiting_response := true }], messages := [], keys := [], nextKeyId := 0, nextMsgId := 0, now := 77 } 10 { id := 10, reporter := none, incident_type := .bullying, description := "d", incident_date := 0, location := "", is_anonymous := true, created_at := 0, updated_at := 0, reporter_name := "", reporter_email := "", reporter_phone := "", tracking_code := "t", status := "pending", assigned_to := none, assigned_at := none, resolved_at := none, counselor_notes := "", awaiting_response := true } 0 { profile := { user_id := 1, specialization := .disciplinary, max_active_cases := 25, auto_assign_enabled := true, last_auto_assigned_at := none }, active_cases := 0, specialization_rank := 0, last_auto_assigned_at := none }).2.2 (by decide) (by decide)
    (by decide)
